import Mathlib

/-
Verification development for the `waterworks` lattice-Boltzmann fluid
simulation (`src/fluidSimulation.js`).  The JavaScript solver is shallow-
embedded over exact rationals: every `Float` of the source becomes a `ℚ`,
the nine `Float32Array` population arrays become lists of rationals, and
in-place loops become folds over the same index ranges in the same order.
Host primitives with no rational counterpart (`Math.cos`, `Math.sin`,
`Math.sqrt`, the literal π) are abstracted as function parameters and, in
concrete evaluations, instantiated with rational approximations defined
below.
-/

set_option maxHeartbeats 1600000
set_option maxRecDepth 8000

namespace Waterworks

/-- One D2Q9 lattice cell: the nine directional populations, one field per
population array (`n0`, `nN`, `nS`, `nE`, `nW`, `nNE`, `nSE`, `nNW`, `nSW`)
of `FluidSimulation`. -/
structure Cell where
  n0 : ℚ
  nN : ℚ
  nS : ℚ
  nE : ℚ
  nW : ℚ
  nNE : ℚ
  nSE : ℚ
  nNW : ℚ
  nSW : ℚ
deriving DecidableEq, Repr

/-- `computeDensity`: the sum of the nine populations, in the source's
addition order. -/
def density (c : Cell) : ℚ :=
  c.n0 + c.nN + c.nS + c.nE + c.nW + c.nNW + c.nNE + c.nSW + c.nSE

/-- Raw x-momentum `(nE + nNE + nSE) - (nW + nNW + nSW)` (the `thisux`
numerator of `collideBGK`). -/
def xmom (c : Cell) : ℚ := (c.nE + c.nNE + c.nSE) - (c.nW + c.nNW + c.nSW)

/-- Raw y-momentum `(nN + nNE + nNW) - (nS + nSE + nSW)` (the `thisuy`
numerator of `collideBGK`). -/
def ymom (c : Cell) : ℚ := (c.nN + c.nNE + c.nNW) - (c.nS + c.nSE + c.nSW)

/-- LBM weight `4/9` (`this.four9ths`). -/
def four9ths : ℚ := 4 / 9
/-- LBM weight `1/9` (`this.one9th`). -/
def one9th : ℚ := 1 / 9
/-- LBM weight `1/36` (`this.one36th`). -/
def one36th : ℚ := 1 / 36

/-- The D2Q9 equilibrium populations written by `setEquilibrium(x, y, ux,
uy, rho)`, as a cell value. -/
def equilibriumCell (ux uy rho : ℚ) : Cell :=
  let ux3 := 3 * ux
  let uy3 := 3 * uy
  let ux2 := ux * ux
  let uy2 := uy * uy
  let uxuy2 := 2 * ux * uy
  let u2 := ux2 + uy2
  let u215 := 1.5 * u2
  { n0  := four9ths * rho * (1 - u215)
    nE  := one9th * rho * (1 + ux3 + 4.5 * ux2 - u215)
    nW  := one9th * rho * (1 - ux3 + 4.5 * ux2 - u215)
    nN  := one9th * rho * (1 + uy3 + 4.5 * uy2 - u215)
    nS  := one9th * rho * (1 - uy3 + 4.5 * uy2 - u215)
    nNE := one36th * rho * (1 + ux3 + uy3 + 4.5 * (u2 + uxuy2) - u215)
    nSE := one36th * rho * (1 + ux3 - uy3 + 4.5 * (u2 - uxuy2) - u215)
    nNW := one36th * rho * (1 - ux3 + uy3 + 4.5 * (u2 - uxuy2) - u215)
    nSW := one36th * rho * (1 - ux3 - uy3 + 4.5 * (u2 + uxuy2) - u215) }

/-- A collided cell together with the macroscopic values the collision
loop stores into `rho[i]`, `ux[i]`, `uy[i]`, `pressure[i]`. -/
structure CellFull where
  pops : Cell
  rho : ℚ
  ux : ℚ
  uy : ℚ
  pressure : ℚ
deriving DecidableEq, Repr

/-- The per-cell body of `collideBGK`: `omega = 1/(3*viscosity + 0.5)`,
macroscopic values from the current populations, then the relaxation
`f += omega * (f_eq - f)` for each of the nine directions.  The source
contains no density floor, finiteness check, reset, or correction
counter: the divisions `thisux / thisrho`, `thisuy / thisrho` are
unguarded (in `ℚ`, division by zero yields 0 where the source would
produce `NaN`). -/
def collideBGKcell (viscosity : ℚ) (c : Cell) : CellFull :=
  let omega := 1 / (3 * viscosity + 0.5)
  let thisrho := density c
  let ux := xmom c / thisrho
  let uy := ymom c / thisrho
  let eq := equilibriumCell ux uy thisrho
  { pops :=
      { n0  := c.n0 + omega * (eq.n0 - c.n0)
        nE  := c.nE + omega * (eq.nE - c.nE)
        nW  := c.nW + omega * (eq.nW - c.nW)
        nN  := c.nN + omega * (eq.nN - c.nN)
        nS  := c.nS + omega * (eq.nS - c.nS)
        nNE := c.nNE + omega * (eq.nNE - c.nNE)
        nSE := c.nSE + omega * (eq.nSE - c.nSE)
        nNW := c.nNW + omega * (eq.nNW - c.nNW)
        nSW := c.nSW + omega * (eq.nSW - c.nSW) }
    rho := thisrho
    ux := ux
    uy := uy
    pressure := thisrho / 3 }

/-- The per-cell body of `collideMRT`.  The moment transform `m = M·f`,
the equilibrium moments `meq`, the relaxation `m' = m - S·(m - meq)` and
the back transform `f' = M⁻¹·m'` are written out row by row, with the
distribution ordering `f = [n0, nE, nN, nW, nS, nNE, nNW, nSW, nSE]` of
the source; each line corresponds to one row of the matrices `M` / `Minv`
of `initMRTParameters`.  The relaxation rates `s_e`, `s_eps`, `s_q` are
taken as parameters (`initMRTParameters` runs before `this.viscosity` is
assigned, so the stored `s_nu` is `NaN`; here `s_nu` is recomputed from
the viscosity parameter by the same formula `1/(3ν+0.5)`).  Conserved
moments use rate `1.0` exactly as in the stored `S`. -/
def collideMRTcell (sE sEps sQ viscosity : ℚ) (c : Cell) : CellFull :=
  let f0 := c.n0
  let f1 := c.nE
  let f2 := c.nN
  let f3 := c.nW
  let f4 := c.nS
  let f5 := c.nNE
  let f6 := c.nNW
  let f7 := c.nSW
  let f8 := c.nSE
  let thisrho := f0 + f1 + f2 + f3 + f4 + f5 + f6 + f7 + f8
  let thisux := (f1 + f5 + f8 - f3 - f6 - f7) / thisrho
  let thisuy := (f2 + f5 + f6 - f4 - f7 - f8) / thisrho
  -- m = M·f, one let per row of M
  let m0 := f0 + f1 + f2 + f3 + f4 + f5 + f6 + f7 + f8
  let m1 := -4*f0 - f1 - f2 - f3 - f4 + 2*f5 + 2*f6 + 2*f7 + 2*f8
  let m2 := 4*f0 - 2*f1 - 2*f2 - 2*f3 - 2*f4 + f5 + f6 + f7 + f8
  let m3 := f1 - f3 + f5 - f6 - f7 + f8
  let m4 := -2*f1 + 2*f3 + f5 - f6 - f7 + f8
  let m5 := f2 - f4 + f5 + f6 - f7 - f8
  let m6 := -2*f2 + 2*f4 + f5 + f6 - f7 - f8
  let m7 := f1 - f2 + f3 - f4
  let m8 := f5 - f6 + f7 - f8
  let ux2 := thisux * thisux
  let uy2 := thisuy * thisuy
  let u2 := ux2 + uy2
  -- equilibrium moments, as in the source
  let meq0 := thisrho
  let meq1 := -2*thisrho + 3*thisrho*u2
  let meq2 := thisrho - 3*thisrho*u2
  let meq3 := thisrho*thisux
  let meq4 := -(2/3)*thisrho*thisux
  let meq5 := thisrho*thisuy
  let meq6 := -(2/3)*thisrho*thisuy
  let meq7 := thisrho*(ux2 - uy2)
  let meq8 := thisrho*thisux*thisuy
  -- m' = m - S·(m - meq) with S = [1, s_e, s_eps, 1, s_q, 1, s_q, s_nu, s_nu]
  let sNu := 1 / (3 * viscosity + 0.5)
  let mp0 := m0 - 1 * (m0 - meq0)
  let mp1 := m1 - sE * (m1 - meq1)
  let mp2 := m2 - sEps * (m2 - meq2)
  let mp3 := m3 - 1 * (m3 - meq3)
  let mp4 := m4 - sQ * (m4 - meq4)
  let mp5 := m5 - 1 * (m5 - meq5)
  let mp6 := m6 - sQ * (m6 - meq6)
  let mp7 := m7 - sNu * (m7 - meq7)
  let mp8 := m8 - sNu * (m8 - meq8)
  -- f' = Minv·m', one let per row of Minv
  let fp0 := (1/9)*mp0 - (1/9)*mp1 + (1/9)*mp2
  let fp1 := (1/9)*mp0 - (1/36)*mp1 - (1/18)*mp2 + (1/6)*mp3 - (1/6)*mp4 + (1/4)*mp7
  let fp2 := (1/9)*mp0 - (1/36)*mp1 - (1/18)*mp2 + (1/6)*mp5 - (1/6)*mp6 - (1/4)*mp7
  let fp3 := (1/9)*mp0 - (1/36)*mp1 - (1/18)*mp2 - (1/6)*mp3 + (1/6)*mp4 + (1/4)*mp7
  let fp4 := (1/9)*mp0 - (1/36)*mp1 - (1/18)*mp2 - (1/6)*mp5 + (1/6)*mp6 - (1/4)*mp7
  let fp5 := (1/9)*mp0 + (1/18)*mp1 + (1/36)*mp2 + (1/6)*mp3 + (1/12)*mp4 + (1/6)*mp5 + (1/12)*mp6 + (1/4)*mp8
  let fp6 := (1/9)*mp0 + (1/18)*mp1 + (1/36)*mp2 - (1/6)*mp3 - (1/12)*mp4 + (1/6)*mp5 + (1/12)*mp6 - (1/4)*mp8
  let fp7 := (1/9)*mp0 + (1/18)*mp1 + (1/36)*mp2 - (1/6)*mp3 - (1/12)*mp4 - (1/6)*mp5 - (1/12)*mp6 + (1/4)*mp8
  let fp8 := (1/9)*mp0 + (1/18)*mp1 + (1/36)*mp2 + (1/6)*mp3 + (1/12)*mp4 - (1/6)*mp5 - (1/12)*mp6 - (1/4)*mp8
  { pops := { n0 := fp0, nE := fp1, nN := fp2, nW := fp3, nS := fp4,
              nNE := fp5, nNW := fp6, nSW := fp7, nSE := fp8 }
    rho := thisrho
    ux := thisux
    uy := thisuy
    pressure := thisrho / 3 }

end Waterworks

/-
Batteries marks the `Rat` field operations `@[irreducible]`; restoring the
default reducibility lets `decide` evaluate concrete rational states of the
embedded simulation during proof checking.
-/
attribute [local semireducible] Rat.add Rat.mul Rat.inv Rat.sub Rat.ofScientific

set_option linter.unusedVariables false

namespace Waterworks

/-- The population sum of `setEquilibrium`'s output is exactly the requested
density: the quadratic velocity terms cancel across the nine weights. -/
lemma density_equilibrium (ux uy rho : ℚ) :
    density (equilibriumCell ux uy rho) = rho := by
  simp only [equilibriumCell, density, four9ths, one9th, one36th]
  ring

/-- The x-momentum of `setEquilibrium`'s output is `rho * ux`. -/
lemma xmom_equilibrium (ux uy rho : ℚ) :
    xmom (equilibriumCell ux uy rho) = rho * ux := by
  simp only [equilibriumCell, xmom, four9ths, one9th, one36th]
  ring

/-- The y-momentum of `setEquilibrium`'s output is `rho * uy`. -/
lemma ymom_equilibrium (ux uy rho : ℚ) :
    ymom (equilibriumCell ux uy rho) = rho * uy := by
  simp only [equilibriumCell, ymom, four9ths, one9th, one36th]
  ring

/-- A cell already at equilibrium for a nonzero density is a fixed point of
the BGK collision: every relaxation increment `omega * (f_eq - f)`
vanishes. -/
lemma bgk_fixes_equilibrium (v ux uy rho : ℚ) (h : rho ≠ 0) :
    (collideBGKcell v (equilibriumCell ux uy rho)).pops
      = equilibriumCell ux uy rho := by
  simp only [collideBGKcell]
  rw [density_equilibrium, xmom_equilibrium, ymom_equilibrium,
      mul_div_cancel_left₀ _ h, mul_div_cancel_left₀ _ h]
  simp

/-- MRT collision conserves the population sum for any relaxation rates:
the zeroth moment is relaxed at rate `1.0` toward itself. -/
lemma mrt_density_general (sE sEps sQ v : ℚ) (c : Cell) :
    density (collideMRTcell sE sEps sQ v c).pops = density c := by
  simp only [collideMRTcell, density]
  ring

/-- The x-momentum of the MRT-collided populations is the third equilibrium
moment `thisrho * thisux`, for any relaxation rates. -/
lemma mrt_xmom_general (sE sEps sQ v : ℚ) (c : Cell) :
    xmom (collideMRTcell sE sEps sQ v c).pops
      = density c * (xmom c / density c) := by
  simp only [collideMRTcell, density, xmom]
  ring

/-- The y-momentum of the MRT-collided populations is the fifth equilibrium
moment `thisrho * thisuy`, for any relaxation rates. -/
lemma mrt_ymom_general (sE sEps sQ v : ℚ) (c : Cell) :
    ymom (collideMRTcell sE sEps sQ v c).pops
      = density c * (ymom c / density c) := by
  simp only [collideMRTcell, density, ymom]
  ring

/-- BGK collision conserves the population sum (the equilibrium it relaxes
toward has the same sum as the current populations). -/
lemma bgk_density_general (v : ℚ) (c : Cell) :
    density (collideBGKcell v c).pops = density c := by
  simp only [collideBGKcell, equilibriumCell, density, xmom, ymom,
    four9ths, one9th, one36th]
  ring

/-- The x-momentum of the BGK-collided populations, before cancelling the
density quotient. -/
lemma bgk_xmom_general (v : ℚ) (c : Cell) :
    xmom (collideBGKcell v c).pops
      = xmom c + (1 / (3 * v + 0.5)) * (density c * (xmom c / density c) - xmom c) := by
  simp only [collideBGKcell, equilibriumCell, density, xmom, ymom,
    four9ths, one9th, one36th]
  ring

/-- The y-momentum of the BGK-collided populations, before cancelling the
density quotient. -/
lemma bgk_ymom_general (v : ℚ) (c : Cell) :
    ymom (collideBGKcell v c).pops
      = ymom c + (1 / (3 * v + 0.5)) * (density c * (ymom c / density c) - ymom c) := by
  simp only [collideBGKcell, equilibriumCell, density, xmom, ymom,
    four9ths, one9th, one36th]
  ring

/-- A cell whose total density is `1e-6`, as in the spec's stability-guard
test: all mass in the rest population. -/
def tinyCell : Cell :=
  { n0 := 1/1000000, nN := 0, nS := 0, nE := 0, nW := 0,
    nNE := 0, nSE := 0, nNW := 0, nSW := 0 }

/-- A unit-density cell moving east at speed 1 (all mass in `nE`). -/
def movingCell : Cell :=
  { n0 := 0, nN := 0, nS := 0, nE := 1, nW := 0,
    nNE := 0, nSE := 0, nNW := 0, nSW := 0 }

/-- A cell at twice the reference density, at rest: each equilibrium
population for `rho = 2`, `ux = uy = 0`. -/
def doubleCell : Cell := equilibriumCell 0 0 2

end Waterworks
namespace Waterworks

/-- The per-cell arrays allocated by `initArrays`, as lists indexed
`x + y * xdim` (`Float32Array` becomes `List ℚ`, `Uint8Array` becomes
`List Bool`). -/
structure Arrays where
  n0 : List ℚ
  nN : List ℚ
  nS : List ℚ
  nE : List ℚ
  nW : List ℚ
  nNE : List ℚ
  nSE : List ℚ
  nNW : List ℚ
  nSW : List ℚ
  rho : List ℚ
  ux : List ℚ
  uy : List ℚ
  curl : List ℚ
  pressure : List ℚ
  speed : List ℚ
  barriers : List Bool
deriving DecidableEq, Repr

/-- Array read `l[i]` (in-range everywhere the source loops). -/
def getQ (l : List ℚ) (i : ℕ) : ℚ := l.getD i 0

/-- Barrier read `this.barriers[i]`, `1` becomes `true`. -/
def gB (l : List Bool) (i : ℕ) : Bool := l.getD i false

/-- Row-major index `x + y * xdim`. -/
def idx (xdim x y : ℕ) : ℕ := x + y * xdim

/-- The index list of a loop `for (i = a; i < b; i++)`. -/
def loopRange (a b : ℕ) : List ℕ := List.range' a (b - a)

/-- Gather the nine populations of cell `i`. -/
def cellAt (a : Arrays) (i : ℕ) : Cell :=
  { n0 := getQ a.n0 i, nN := getQ a.nN i, nS := getQ a.nS i,
    nE := getQ a.nE i, nW := getQ a.nW i, nNE := getQ a.nNE i,
    nSE := getQ a.nSE i, nNW := getQ a.nNW i, nSW := getQ a.nSW i }

/-- Store the nine populations of cell `i`. -/
def writePops (a : Arrays) (i : ℕ) (c : Cell) : Arrays :=
  { a with
    n0 := a.n0.set i c.n0
    nN := a.nN.set i c.nN
    nS := a.nS.set i c.nS
    nE := a.nE.set i c.nE
    nW := a.nW.set i c.nW
    nNE := a.nNE.set i c.nNE
    nSE := a.nSE.set i c.nSE
    nNW := a.nNW.set i c.nNW
    nSW := a.nSW.set i c.nSW }

/-- `computeDensity(i)` on the arrays. -/
def computeDensityA (a : Arrays) (i : ℕ) : ℚ :=
  getQ a.n0 i + getQ a.nN i + getQ a.nS i + getQ a.nE i + getQ a.nW i +
  getQ a.nNW i + getQ a.nNE i + getQ a.nSW i + getQ a.nSE i

/-- `setEquilibrium(x, y, ux, uy, rho)`: write the equilibrium populations
and the macroscopic fields at cell `(x, y)`. -/
def setEquilibriumA (xdim x y : ℕ) (ux uy rho : ℚ) (a : Arrays) : Arrays :=
  let i := idx xdim x y
  let a := writePops a i (equilibriumCell ux uy rho)
  { a with
    rho := a.rho.set i rho
    ux := a.ux.set i ux
    uy := a.uy.set i uy }

/-- The simulation state: grid dimensions, flow parameters, and the cell
arrays.  Rendering-only state (canvas, image data, color maps, streamline
cache, UI flags) is outside the numerical core and not modelled; the MRT
moment matrices are compile-time constants handled by `collideMRTcell`. -/
structure Sim where
  xdim : ℕ
  ydim : ℕ
  pxPerSquare : ℚ
  flowSpeed : ℚ
  flowAngle : ℚ
  viscosity : ℚ
  currentAngle : ℚ
  chordLength : ℤ
  reynoldsNumber : ℚ
  arr : Arrays
deriving DecidableEq, Repr

/-- `stream()`: the four in-place sweeps of the source in their exact loop
order — north-moving populations (y descending), south-moving populations
(y ascending), the east/west shifts, and the barrier bounce-back swaps.
Note the east loop executes `nE[x + y*xdim] = nE[(x+1) + y*xdim]` for
`x = 0 .. xdim-2` ascending, and the west loop `nW[x] = nW[x-1]` for
`x = xdim-1 .. 1` descending, exactly as the source does. -/
def streamF (s : Sim) : Sim :=
  let xdim := s.xdim
  let a := s.arr
  -- Stream north-moving: for (y = ydim-2; y > 0; y--), x = 1 .. xdim-2
  let a := ((loopRange 1 (s.ydim - 1)).reverse).foldl (fun (a : Arrays) (y : Nat) =>
    (loopRange 1 (s.xdim - 1)).foldl (fun (a : Arrays) (x : Nat) =>
      let i := idx xdim x y
      let iN := idx xdim x (y-1)
      let iNW := idx xdim (x+1) (y-1)
      let iNE := idx xdim (x-1) (y-1)
      let a := { a with nN := a.nN.set i (getQ a.nN iN) }
      let a := { a with nNW := a.nNW.set i (getQ a.nNW iNW) }
      { a with nNE := a.nNE.set i (getQ a.nNE iNE) }) a) a
  -- Stream south-moving: for (y = 0; y < ydim-1; y++), x = 1 .. xdim-2
  let a := (loopRange 0 (s.ydim - 1)).foldl (fun (a : Arrays) (y : Nat) =>
    (loopRange 1 (s.xdim - 1)).foldl (fun (a : Arrays) (x : Nat) =>
      let i := idx xdim x y
      let iS := idx xdim x (y+1)
      let iSW := idx xdim (x+1) (y+1)
      let iSE := idx xdim (x-1) (y+1)
      let a := { a with nS := a.nS.set i (getQ a.nS iS) }
      let a := { a with nSW := a.nSW.set i (getQ a.nSW iSW) }
      { a with nSE := a.nSE.set i (getQ a.nSE iSE) }) a) a
  -- Stream east/west, per row y = 1 .. ydim-2
  let a := (loopRange 1 (s.ydim - 1)).foldl (fun (a : Arrays) (y : Nat) =>
    let a := (loopRange 0 (s.xdim - 1)).foldl (fun (a : Arrays) (x : Nat) =>
      { a with nE := a.nE.set (idx xdim x y) (getQ a.nE (idx xdim (x+1) y)) }) a
    ((loopRange 1 s.xdim).reverse).foldl (fun (a : Arrays) (x : Nat) =>
      { a with nW := a.nW.set (idx xdim x y) (getQ a.nW (idx xdim (x-1) y)) }) a) a
  -- Bounce-back from barriers: destructuring swaps with the post-stream values
  let a := (loopRange 1 (s.ydim - 1)).foldl (fun (a : Arrays) (y : Nat) =>
    (loopRange 1 (s.xdim - 1)).foldl (fun (a : Arrays) (x : Nat) =>
      if gB a.barriers (idx xdim x y) then
        let i := idx xdim x y
        let xE := x + 1
        let xW := x - 1
        let yN := y - 1
        let iE := idx xdim xE y
        let e0 := getQ a.nE iE
        let w0 := getQ a.nW i
        let a := { a with nE := a.nE.set iE w0, nW := a.nW.set i e0 }
        let iN := idx xdim x yN
        let nv := getQ a.nN iN
        let sv := getQ a.nS i
        let a := { a with nN := a.nN.set iN sv, nS := a.nS.set i nv }
        let iNE := idx xdim xE yN
        let nev := getQ a.nNE iNE
        let swv := getQ a.nSW i
        let a := { a with nNE := a.nNE.set iNE swv, nSW := a.nSW.set i nev }
        let iNW := idx xdim xW yN
        let nwv := getQ a.nNW iNW
        let sev := getQ a.nSE i
        { a with nNW := a.nNW.set iNW sev, nSE := a.nSE.set i nwv }
      else a) a) a
  { s with arr := a }

/-- The inlet/outlet stage of `setBoundaryConditions()`: for each row,
force the upwind column to equilibrium at density 1 and the downwind
column to equilibrium at the density of its one-cell-inward neighbor,
choosing the columns by the sign of `cos(flowAngle)`. -/
def bcInletOutlet (cF sF : ℚ → ℚ) (s : Sim) : Sim :=
  let xdim := s.xdim
  let cosA := cF s.flowAngle
  let sinA := sF s.flowAngle
  let a :=
    if 0 ≤ cosA then
      (loopRange 0 s.ydim).foldl (fun (a : Arrays) (y : Nat) =>
        let a := setEquilibriumA xdim 0 y (s.flowSpeed * cosA) (s.flowSpeed * sinA) 1 a
        let rhoOut := computeDensityA a (idx xdim (s.xdim - 2) y)
        setEquilibriumA xdim (s.xdim - 1) y (s.flowSpeed * cosA) (s.flowSpeed * sinA) rhoOut a) s.arr
    else
      (loopRange 0 s.ydim).foldl (fun (a : Arrays) (y : Nat) =>
        let a := setEquilibriumA xdim (s.xdim - 1) y (s.flowSpeed * cosA) (s.flowSpeed * sinA) 1 a
        let rhoOut := computeDensityA a (idx xdim 1 y)
        setEquilibriumA xdim 0 y (s.flowSpeed * cosA) (s.flowSpeed * sinA) rhoOut a) s.arr
  { s with arr := a }

/-- One cell of the free-slip copy: populations of `iSrc` copied to
`iDst` with the north/south components reflected, in the source's
statement order. -/
def freeSlipCopy (a : Arrays) (iDst iSrc : ℕ) : Arrays :=
  let a := { a with n0 := a.n0.set iDst (getQ a.n0 iSrc) }
  let a := { a with nE := a.nE.set iDst (getQ a.nE iSrc) }
  let a := { a with nW := a.nW.set iDst (getQ a.nW iSrc) }
  let a := { a with nN := a.nN.set iDst (getQ a.nS iSrc) }
  let a := { a with nS := a.nS.set iDst (getQ a.nN iSrc) }
  let a := { a with nNE := a.nNE.set iDst (getQ a.nSE iSrc) }
  let a := { a with nNW := a.nNW.set iDst (getQ a.nSW iSrc) }
  let a := { a with nSE := a.nSE.set iDst (getQ a.nNE iSrc) }
  { a with nSW := a.nSW.set iDst (getQ a.nNW iSrc) }

/-- The free-slip top row of `setBoundaryConditions()`: copy row `ydim-2`
into row `ydim-1`, reflecting normal components. -/
def bcTopRow (s : Sim) : Sim :=
  { s with arr := (loopRange 0 s.xdim).foldl (fun (a : Arrays) (x : Nat) =>
      freeSlipCopy a (idx s.xdim x (s.ydim - 1)) (idx s.xdim x (s.ydim - 2))) s.arr }

/-- The free-slip bottom row of `setBoundaryConditions()`: copy row `1`
into row `0`, reflecting normal components. -/
def bcBottomRow (s : Sim) : Sim :=
  { s with arr := (loopRange 0 s.xdim).foldl (fun (a : Arrays) (x : Nat) =>
      freeSlipCopy a (idx s.xdim x 0) (idx s.xdim x 1)) s.arr }

/-- `setBoundaryConditions()`: inlet/outlet columns, then the free-slip
top row, then the free-slip bottom row. -/
def setBoundaryConditionsF (cF sF : ℚ → ℚ) (s : Sim) : Sim :=
  bcBottomRow (bcTopRow (bcInletOutlet cF sF s))

/-- The loop body of `collideBGK` at cell `(x, y)`: skip barriers,
otherwise apply the per-cell update and store the macroscopic fields. -/
def collideBGKstep (viscosity : ℚ) (xdim : ℕ) (a : Arrays) (x y : ℕ) : Arrays :=
  let i := idx xdim x y
  if gB a.barriers i then a
  else
    let r := collideBGKcell viscosity (cellAt a i)
    let a := writePops a i r.pops
    { a with
      rho := a.rho.set i r.rho
      ux := a.ux.set i r.ux
      uy := a.uy.set i r.uy
      pressure := a.pressure.set i r.pressure }

/-- `collideBGK()` over the lattice: for every interior non-barrier cell,
apply the per-cell BGK update and store the macroscopic fields. -/
def collideBGKlat (s : Sim) : Sim :=
  { s with arr := (loopRange 1 (s.ydim - 1)).foldl (fun (a : Arrays) (y : Nat) =>
      (loopRange 1 (s.xdim - 1)).foldl (fun (a : Arrays) (x : Nat) =>
        collideBGKstep s.viscosity s.xdim a x y) a) s.arr }

/-- `_zeroOutBarrierCells()`: zero populations and macroscopic fields at
every barrier cell. -/
def zeroOutBarrierCellsA (a : Arrays) : Arrays :=
  (loopRange 0 a.barriers.length).foldl (fun (a : Arrays) (i : Nat) =>
    if gB a.barriers i then
      let a := writePops a i
        { n0 := 0, nN := 0, nS := 0, nE := 0, nW := 0,
          nNE := 0, nSE := 0, nNW := 0, nSW := 0 }
      { a with
        rho := a.rho.set i 0
        ux := a.ux.set i 0
        uy := a.uy.set i 0 }
    else a) a

/-- `updateReynoldsNumber()`: `Re = flowSpeed * chordLength / viscosity`
when a chord exists. -/
def updateReynoldsNumberF (s : Sim) : Sim :=
  if 0 < s.chordLength then
    { s with reynoldsNumber := s.flowSpeed * (s.chordLength : ℚ) / s.viscosity }
  else s

/-- All-zero arrays of the given cell count (`initArrays` allocates
zero-filled typed arrays). -/
def freshArrays (size : ℕ) : Arrays :=
  { n0 := List.replicate size 0
    nN := List.replicate size 0
    nS := List.replicate size 0
    nE := List.replicate size 0
    nW := List.replicate size 0
    nNE := List.replicate size 0
    nSE := List.replicate size 0
    nNW := List.replicate size 0
    nSW := List.replicate size 0
    rho := List.replicate size 0
    ux := List.replicate size 0
    uy := List.replicate size 0
    curl := List.replicate size 0
    pressure := List.replicate size 0
    speed := List.replicate size 0
    barriers := List.replicate size false }

/-- `initArrays()`: allocate all per-cell arrays as zeros. -/
def initArraysF (s : Sim) : Sim :=
  { s with arr := freshArrays (s.xdim * s.ydim) }

/-- The main double loop of `initFluid()`: every cell to the inlet
equilibrium at density 1 with pressure `rho0 / 3`. -/
def initFluidLoop (xdim ydim : ℕ) (ux0 uy0 : ℚ) (a0 : Arrays) : Arrays :=
  (loopRange 0 ydim).foldl (fun (a : Arrays) (y : Nat) =>
    (loopRange 0 xdim).foldl (fun (a : Arrays) (x : Nat) =>
      let a := setEquilibriumA xdim x y ux0 uy0 1 a
      { a with pressure := a.pressure.set (idx xdim x y) (1 / 3) }) a) a0

/-- `initFluid()`: equilibrium everywhere at the inlet velocity, initial
pressure, zeroed curl, zeroed barrier cells, Reynolds update. -/
def initFluidF (cF sF : ℚ → ℚ) (s : Sim) : Sim :=
  let ux0 := s.flowSpeed * cF s.flowAngle
  let uy0 := s.flowSpeed * sF s.flowAngle
  let a := initFluidLoop s.xdim s.ydim ux0 uy0 s.arr
  let a := { a with curl := a.curl.map (fun _ => 0) }
  let a := zeroOutBarrierCellsA a
  updateReynoldsNumberF { s with arr := a }

/-- `Math.round`: round half toward positive infinity (`floor(x + 1/2)`). -/
def jround (x : ℚ) : ℤ := ⌊x + 1/2⌋

/-- Ascending integer range `a .. b` inclusive (empty when `b < a`). -/
def intRange (a b : ℤ) : List ℤ :=
  (List.range' 0 (b + 1 - a).toNat).map (fun k => a + (k : ℤ))

/-- Insert into an ascending sorted list. -/
def insertSorted (x : ℤ) : List ℤ → List ℤ
  | [] => [x]
  | y :: ys => if x ≤ y then x :: y :: ys else y :: insertSorted x ys

/-- `xIntersections.sort((a,b) => a-b)`: ascending numeric sort. -/
def sortInts (l : List ℤ) : List ℤ := l.foldl (fun acc x => insertSorted x acc) []

/-- Consecutive pairs `(l[k], l[k+1])` for `k = 0, 2, 4, ...`. -/
def fillPairs : List ℤ → List (ℤ × ℤ)
  | x :: y :: rest => (x, y) :: fillPairs rest
  | _ => []

/-- The x-intersections of polygon edges with the horizontal line at `y`
(`_fillPolygon` step 2), rounded, in edge order. -/
def scanIntersections (polygon : List (ℤ × ℤ)) (y : ℤ) : List ℤ :=
  (loopRange 0 polygon.length).foldl (fun (acc : List ℤ) (i : Nat) =>
    let p1 := polygon.getD i (0, 0)
    let p2 := polygon.getD ((i + 1) % polygon.length) (0, 0)
    if (p1.2 ≤ y ∧ p2.2 > y) ∨ (p2.2 ≤ y ∧ p1.2 > y) then
      let t := ((y : ℚ) - (p1.2 : ℚ)) / ((p2.2 : ℚ) - (p1.2 : ℚ))
      acc ++ [jround ((p1.1 : ℚ) + ((p2.1 : ℚ) - (p1.1 : ℚ)) * t)]
    else acc) []

/-- Fill one scan line (`_fillPolygon` step 3): mark cells solid between
each consecutive pair of sorted intersections, clamped to the grid. -/
def fillScanLine (xdim : ℕ) (y : ℤ) (sorted : List ℤ) (bs0 : List Bool) : List Bool :=
  (fillPairs sorted).foldl (fun (bs : List Bool) (pr : ℤ × ℤ) =>
    (intRange pr.1 pr.2).foldl (fun (bs : List Bool) (x : ℤ) =>
      if 0 ≤ x ∧ x < (xdim : ℤ) then
        bs.set (x + y * (xdim : ℤ)).toNat true
      else bs) bs) bs0

/-- `_fillPolygon(polygon, barrierArray)`: scan-line polygon fill over the
bounding box clamped to the domain. -/
def fillPolygon (xdim ydim : ℕ) (polygon : List (ℤ × ℤ)) (barriers : List Bool) : List Bool :=
  let ys := polygon.map (fun p => p.2)
  let minY : ℤ := max 0 (ys.foldl min (ys.headD 0))
  let maxY : ℤ := min ((ydim : ℤ) - 1) (ys.foldl max (ys.headD 0))
  (intRange minY maxY).foldl (fun (bs : List Bool) (y : ℤ) =>
    fillScanLine xdim y (sortInts (scanIntersections polygon y)) bs) barriers

/-- `_generateAirfoilPoints`: the rounded top and bottom surface points of
the cambered section, for `i = 0 .. chordLength`. -/
def generateAirfoilPoints (cF sF : ℚ → ℚ) (chordLength centerX centerY : ℤ)
    (angle : ℚ) (thicknessFunc camberFunc : ℚ → ℚ) :
    List (ℤ × ℤ) × List (ℤ × ℤ) :=
  let cosAng := cF angle
  let sinAng := sF angle
  (loopRange 0 (chordLength + 1).toNat).foldl
    (fun (acc : List (ℤ × ℤ) × List (ℤ × ℤ)) (i : Nat) =>
      let xFrac : ℚ := (i : ℚ) / (chordLength : ℚ)
      let halfThick := thicknessFunc xFrac
      let camber := camberFunc xFrac
      let xCamber := (centerX : ℚ) + (i : ℚ) * cosAng - camber * sinAng
      let yCamber := (centerY : ℚ) + (i : ℚ) * sinAng + camber * cosAng
      let xTop := jround (xCamber - halfThick * sinAng)
      let yTop := jround (yCamber + halfThick * cosAng)
      let xBot := jround (xCamber + halfThick * sinAng)
      let yBot := jround (yCamber - halfThick * cosAng)
      (acc.1 ++ [(xTop, yTop)], acc.2 ++ [(xBot, yBot)])) ([], [])

/-- The NACA thickness polynomial of `addNACABarrier` (`thickness / 0.2`
scale, `Math.sqrt` abstracted as `qF`). -/
def nacaThicknessF (qF : ℚ → ℚ) (thickness chordLength : ℚ) (xFrac : ℚ) : ℚ :=
  (thickness / 0.2) * chordLength *
    (0.2969 * qF xFrac - 0.1260 * xFrac - 0.3516 * xFrac ^ 2 +
      0.2843 * xFrac ^ 3 - 0.1015 * xFrac ^ 4)

/-- The NACA camber polynomial of `addNACABarrier` (4% camber at 40%
chord, piecewise quadratic). -/
def nacaCamberF (chordLength : ℚ) (xFrac : ℚ) : ℚ :=
  if xFrac ≤ 0.4 then
    0.04 * (xFrac / 0.4 ^ 2) * (2 * 0.4 - xFrac) * chordLength
  else
    0.04 * ((1 - xFrac) / (1 - 0.4) ^ 2) * (1 + xFrac - 2 * 0.4) * chordLength

/-- The closed airfoil polygon of `addNACABarrier`: top points followed by
the reversed bottom points, from the chord length
`floor(xdim * chordFraction)` and the center `(floor(xdim/3),
floor(ydim/2))`. -/
def airfoilPolygon (cF sF qF : ℚ → ℚ) (xdim ydim : ℕ)
    (chordFraction thickness angle : ℚ) : List (ℤ × ℤ) :=
  let chordLength : ℤ := ⌊(xdim : ℚ) * chordFraction⌋
  let centerX : ℤ := ⌊(xdim : ℚ) / 3⌋
  let centerY : ℤ := ⌊(ydim : ℚ) / 2⌋
  let pts := generateAirfoilPoints cF sF chordLength centerX centerY angle
    (nacaThicknessF qF thickness (chordLength : ℚ)) (nacaCamberF (chordLength : ℚ))
  pts.1 ++ pts.2.reverse

/-- `addNACABarrier({chordFraction, thickness, angle})`: chord length from
the grid width, the closed polygon from the thickness and camber
polynomials, scan-line fill into the barrier mask, zeroing of barrier
cells, and the Reynolds update. -/
def addNACABarrierF (cF sF qF : ℚ → ℚ) (chordFraction thickness angle : ℚ)
    (s : Sim) : Sim :=
  let chordLength : ℤ := ⌊(s.xdim : ℚ) * chordFraction⌋
  let polygon := airfoilPolygon cF sF qF s.xdim s.ydim chordFraction thickness angle
  let barriers2 := fillPolygon s.xdim s.ydim polygon s.arr.barriers
  let s := { s with
    chordLength := chordLength
    arr := { s.arr with barriers := barriers2 } }
  let s := { s with arr := zeroOutBarrierCellsA s.arr }
  updateReynoldsNumberF s

/-- `updateAngle(newAngle)`: store the angle, reallocate the arrays,
reinitialize the fluid, and regenerate the airfoil with chord fraction
`1/3.5`. -/
def updateAngleF (cF sF qF : ℚ → ℚ) (s : Sim) (newAngle : ℚ) : Sim :=
  let s := { s with currentAngle := newAngle }
  let s := initArraysF s
  let s := initFluidF cF sF s
  addNACABarrierF cF sF qF (1 / 3.5) 0.12 s.currentAngle s

/-- The JavaScript `options.x || d` defaulting: `undefined` and `0` both
fall back to the default. -/
def orDefault (o : Option ℚ) (d : ℚ) : ℚ :=
  match o with
  | none => d
  | some v => if v = 0 then d else v

/-- The constructor options read by the simulation core. -/
structure Options where
  flowSpeed : Option ℚ
  flowAngleDeg : Option ℚ
  viscosity : Option ℚ
  pxPerSquare : Option ℚ
deriving Repr

/-- Options `{}`: every field absent. -/
def defaultOptions : Options := ⟨none, none, none, none⟩

/-- The `FluidSimulation` constructor on a `width × height` canvas: grid
dimensions clamped to at least 50, flow parameters from the options with
their defaults, `currentAngle = -0.261799`, then `initArrays`,
`initFluid`, and `addNACABarrier` with chord fraction `1/3`.  It performs
no configuration validation.  (`piQ` stands for `Math.PI`; rendering
state is not modelled.) -/
def constructorSim (cF sF qF : ℚ → ℚ) (piQ : ℚ) (width height : ℕ)
    (opts : Options) : Sim :=
  let px := orDefault opts.pxPerSquare 1
  let xdim0 := (⌊(width : ℚ) / px⌋).toNat
  let ydim0 := (⌊(height : ℚ) / px⌋).toNat
  let s : Sim :=
    { xdim := if xdim0 < 50 then 50 else xdim0
      ydim := if ydim0 < 50 then 50 else ydim0
      pxPerSquare := px
      flowSpeed := orDefault opts.flowSpeed 0.2
      flowAngle := orDefault opts.flowAngleDeg 0 * piQ / 180
      viscosity := orDefault opts.viscosity 0.01
      currentAngle := -0.261799
      chordLength := 0
      reynoldsNumber := 0
      arr := freshArrays 0 }
  let s := initArraysF s
  let s := initFluidF cF sF s
  addNACABarrierF cF sF qF (1 / 3) 0.12 s.currentAngle s

/-- `resize(width, height)`: canvas clamped to at least 600 × 400, grid
dimensions recomputed and clamped to at least 50, arrays reallocated,
fluid reinitialized, and the airfoil regenerated with chord fraction
`1/6`.  It performs no validation. -/
def resizeF (cF sF qF : ℚ → ℚ) (s : Sim) (width height : ℕ) : Sim :=
  let xdim0 := (⌊((max width 600 : ℕ) : ℚ) / s.pxPerSquare⌋).toNat
  let ydim0 := (⌊((max height 400 : ℕ) : ℚ) / s.pxPerSquare⌋).toNat
  let s := { s with
    xdim := if xdim0 < 50 then 50 else xdim0
    ydim := if ydim0 < 50 then 50 else ydim0 }
  let s := initArraysF s
  let s := initFluidF cF sF s
  addNACABarrierF cF sF qF (1 / 6) 0.12 s.currentAngle s

/-- The force record assembled at the end of `calculateForces()`. -/
structure Forces where
  fx : ℚ
  fy : ℚ
  drag : ℚ
  lift : ℚ
  cl : ℚ
  cd : ℚ
deriving DecidableEq, Repr

/-- The eight neighbor offsets `(dx, dy)` in the loop order of
`calculateForces` (`dy` outer from -1 to 1, `dx` inner, skipping (0,0)). -/
def neighborOffsets : List (ℤ × ℤ) :=
  [(-1, -1), (0, -1), (1, -1), (-1, 0), (1, 0), (-1, 1), (0, 1), (1, 1)]

/-- Whether the in-bounds neighbor `(x+dx, y+dy)` is a fluid cell. -/
def fluidNeighbor (xdim ydim : ℕ) (barriers : List Bool) (x y : ℕ) (d : ℤ × ℤ) : Bool :=
  let nx := (x : ℤ) + d.1
  let ny := (y : ℤ) + d.2
  decide (0 ≤ nx) && decide (nx < (xdim : ℤ)) && decide (0 ≤ ny) &&
    decide (ny < (ydim : ℤ)) && ! gB barriers (nx + ny * (xdim : ℤ)).toNat

/-- `calculateForces()`.  For each interior barrier cell with at least one
fluid neighbor, the pressure loop's first fluid neighbor executes
`const fluidIdx = nx + ny * this.xdim;` — but `nx` there resolves to the
`const nx = dx / length;` declared three lines further down in the same
block, an access in its temporal dead zone, so the function throws a
`ReferenceError` instead of accumulating the pressure force.  The throw is
modelled as `Except.error`; a lattice whose barrier cells have no fluid
neighbors completes and returns the normalized force record. -/
def calculateForcesE (cF sF : ℚ → ℚ) (s : Sim) : Except String Forces :=
  let cosA := cF s.flowAngle
  let sinA := sF s.flowAngle
  let r := (loopRange 1 (s.ydim - 1)).foldl
    (fun (acc : Except String (ℚ × ℚ)) (y : Nat) =>
      (loopRange 1 (s.xdim - 1)).foldl
        (fun (acc : Except String (ℚ × ℚ)) (x : Nat) =>
          match acc with
          | .error e => .error e
          | .ok fxy =>
            if ! gB s.arr.barriers (idx s.xdim x y) then .ok fxy
            else
              let isBoundary := neighborOffsets.any
                (fun d => fluidNeighbor s.xdim s.ydim s.arr.barriers x y d)
              if ! isBoundary then .ok fxy
              else
                -- the pressure loop reaches a fluid neighbor and dies in
                -- the temporal dead zone of the shadowing `const nx`
                .error "ReferenceError: cannot access nx before initialization")
        acc)
    (.ok (0, 0))
  match r with
  | .error e => .error e
  | .ok (fx, fy) =>
    let drag := fx * cosA + fy * sinA
    let lift := -fx * sinA + fy * cosA
    let normFactor := 0.5 * 1 * s.flowSpeed * s.flowSpeed * (s.chordLength : ℚ)
    .ok { fx := fx, fy := fy, drag := drag / normFactor, lift := lift / normFactor,
          cl := lift / normFactor, cd := drag / normFactor }

/-- Rational stand-in for `Math.cos`: the degree-6 Taylor polynomial,
accurate to about `1e-9` on the angles used here (`cosT 0 = 1` exactly). -/
def cosT (x : ℚ) : ℚ := 1 - x ^ 2 / 2 + x ^ 4 / 24 - x ^ 6 / 720

/-- Rational stand-in for `Math.sin`: the degree-7 Taylor polynomial,
accurate to about `1e-10` on the angles used here (`sinT 0 = 0` exactly). -/
def sinT (x : ℚ) : ℚ := x - x ^ 3 / 6 + x ^ 5 / 120 - x ^ 7 / 5040

/-- Heron iteration for an integer square root (structural fuel
recursion, so it evaluates by kernel reduction). -/
def heron (n : ℕ) : ℕ → ℕ → ℕ
  | 0, x => x
  | fuel + 1, x =>
    if x = 0 then 0
    else
      let y := (x + n / x) / 2
      if y < x then heron n fuel y else x

/-- Integer square root (rounded down) by Heron iteration. -/
def isqrt (n : ℕ) : ℕ := heron n 64 n

/-- Rational stand-in for `Math.sqrt`: scaled integer square root,
accurate to about `1e-6` on `[0, 1]`. -/
def sqrtT (x : ℚ) : ℚ :=
  (isqrt (⌊x * 1000000000000⌋).toNat : ℚ) / 1000000

/-- Rational stand-in for `Math.PI`. -/
def piT : ℚ := 3.14159265358979

end Waterworks

namespace Waterworks

lemma getD_replicate (n i : ℕ) (x d : ℚ) :
    (List.replicate n x).getD i d = if i < n then x else d := by
  induction n generalizing i with
  | zero => simp
  | succ n ih =>
    cases i with
    | zero => simp [List.replicate]
    | succ i => simpa [List.replicate, Nat.succ_lt_succ_iff] using ih i

lemma gB_replicate (n i : ℕ) : gB (List.replicate n false) i = false := by
  unfold gB
  induction n generalizing i with
  | zero => simp
  | succ n ih =>
    cases i with
    | zero => simp [List.replicate]
    | succ i => simp only [List.replicate, List.getD_cons_succ]; exact ih i

-- Scalar projections through the stateful operations
lemma updateReynoldsNumberF_xdim (s : Sim) : (updateReynoldsNumberF s).xdim = s.xdim := by
  unfold updateReynoldsNumberF; split <;> rfl

lemma updateReynoldsNumberF_ydim (s : Sim) : (updateReynoldsNumberF s).ydim = s.ydim := by
  unfold updateReynoldsNumberF; split <;> rfl

lemma updateReynoldsNumberF_viscosity (s : Sim) : (updateReynoldsNumberF s).viscosity = s.viscosity := by
  unfold updateReynoldsNumberF; split <;> rfl

lemma updateReynoldsNumberF_flowSpeed (s : Sim) : (updateReynoldsNumberF s).flowSpeed = s.flowSpeed := by
  unfold updateReynoldsNumberF; split <;> rfl

lemma updateReynoldsNumberF_flowAngle (s : Sim) : (updateReynoldsNumberF s).flowAngle = s.flowAngle := by
  unfold updateReynoldsNumberF; split <;> rfl

lemma updateReynoldsNumberF_pxPerSquare (s : Sim) : (updateReynoldsNumberF s).pxPerSquare = s.pxPerSquare := by
  unfold updateReynoldsNumberF; split <;> rfl

lemma updateReynoldsNumberF_currentAngle (s : Sim) : (updateReynoldsNumberF s).currentAngle = s.currentAngle := by
  unfold updateReynoldsNumberF; split <;> rfl

lemma updateReynoldsNumberF_chordLength (s : Sim) : (updateReynoldsNumberF s).chordLength = s.chordLength := by
  unfold updateReynoldsNumberF; split <;> rfl

lemma updateReynoldsNumberF_arr (s : Sim) : (updateReynoldsNumberF s).arr = s.arr := by
  unfold updateReynoldsNumberF; split <;> rfl

lemma initFluidF_xdim (cF sF : ℚ → ℚ) (s : Sim) : (initFluidF cF sF s).xdim = s.xdim := by
  unfold initFluidF; rw [updateReynoldsNumberF_xdim]

lemma initFluidF_ydim (cF sF : ℚ → ℚ) (s : Sim) : (initFluidF cF sF s).ydim = s.ydim := by
  unfold initFluidF; rw [updateReynoldsNumberF_ydim]

lemma initFluidF_viscosity (cF sF : ℚ → ℚ) (s : Sim) : (initFluidF cF sF s).viscosity = s.viscosity := by
  unfold initFluidF; rw [updateReynoldsNumberF_viscosity]

lemma initFluidF_flowSpeed (cF sF : ℚ → ℚ) (s : Sim) : (initFluidF cF sF s).flowSpeed = s.flowSpeed := by
  unfold initFluidF; rw [updateReynoldsNumberF_flowSpeed]

lemma initFluidF_flowAngle (cF sF : ℚ → ℚ) (s : Sim) : (initFluidF cF sF s).flowAngle = s.flowAngle := by
  unfold initFluidF; rw [updateReynoldsNumberF_flowAngle]

lemma initFluidF_pxPerSquare (cF sF : ℚ → ℚ) (s : Sim) : (initFluidF cF sF s).pxPerSquare = s.pxPerSquare := by
  unfold initFluidF; rw [updateReynoldsNumberF_pxPerSquare]

lemma initFluidF_currentAngle (cF sF : ℚ → ℚ) (s : Sim) : (initFluidF cF sF s).currentAngle = s.currentAngle := by
  unfold initFluidF; rw [updateReynoldsNumberF_currentAngle]

lemma initFluidF_chordLength (cF sF : ℚ → ℚ) (s : Sim) : (initFluidF cF sF s).chordLength = s.chordLength := by
  unfold initFluidF; rw [updateReynoldsNumberF_chordLength]

lemma addNACABarrierF_xdim (cF sF qF : ℚ → ℚ) (cf th ang : ℚ) (s : Sim) :
    (addNACABarrierF cF sF qF cf th ang s).xdim = s.xdim := by
  unfold addNACABarrierF; rw [updateReynoldsNumberF_xdim]

lemma addNACABarrierF_ydim (cF sF qF : ℚ → ℚ) (cf th ang : ℚ) (s : Sim) :
    (addNACABarrierF cF sF qF cf th ang s).ydim = s.ydim := by
  unfold addNACABarrierF; rw [updateReynoldsNumberF_ydim]

lemma addNACABarrierF_viscosity (cF sF qF : ℚ → ℚ) (cf th ang : ℚ) (s : Sim) :
    (addNACABarrierF cF sF qF cf th ang s).viscosity = s.viscosity := by
  unfold addNACABarrierF; rw [updateReynoldsNumberF_viscosity]

lemma addNACABarrierF_flowSpeed (cF sF qF : ℚ → ℚ) (cf th ang : ℚ) (s : Sim) :
    (addNACABarrierF cF sF qF cf th ang s).flowSpeed = s.flowSpeed := by
  unfold addNACABarrierF; rw [updateReynoldsNumberF_flowSpeed]

lemma addNACABarrierF_flowAngle (cF sF qF : ℚ → ℚ) (cf th ang : ℚ) (s : Sim) :
    (addNACABarrierF cF sF qF cf th ang s).flowAngle = s.flowAngle := by
  unfold addNACABarrierF; rw [updateReynoldsNumberF_flowAngle]

lemma addNACABarrierF_pxPerSquare (cF sF qF : ℚ → ℚ) (cf th ang : ℚ) (s : Sim) :
    (addNACABarrierF cF sF qF cf th ang s).pxPerSquare = s.pxPerSquare := by
  unfold addNACABarrierF; rw [updateReynoldsNumberF_pxPerSquare]

lemma addNACABarrierF_currentAngle (cF sF qF : ℚ → ℚ) (cf th ang : ℚ) (s : Sim) :
    (addNACABarrierF cF sF qF cf th ang s).currentAngle = s.currentAngle := by
  unfold addNACABarrierF; rw [updateReynoldsNumberF_currentAngle]

/-- `addNACABarrier` stores `Math.floor(xdim * chordFraction)` as the chord
length. -/
lemma addNACABarrierF_chordLength (cF sF qF : ℚ → ℚ) (cf th ang : ℚ) (s : Sim) :
    (addNACABarrierF cF sF qF cf th ang s).chordLength = ⌊(s.xdim : ℚ) * cf⌋ := by
  unfold addNACABarrierF; rw [updateReynoldsNumberF_chordLength]

/-- The Reynolds number after `addNACABarrier`. -/
lemma addNACABarrierF_reynolds (cF sF qF : ℚ → ℚ) (cf th ang : ℚ) (s : Sim) :
    (addNACABarrierF cF sF qF cf th ang s).reynoldsNumber =
      if 0 < (⌊(s.xdim : ℚ) * cf⌋ : ℤ) then
        s.flowSpeed * ((⌊(s.xdim : ℚ) * cf⌋ : ℤ) : ℚ) / s.viscosity
      else s.reynoldsNumber := by
  unfold addNACABarrierF updateReynoldsNumberF
  dsimp only
  split <;> rfl

/-- The Reynolds number after `initFluid`. -/
lemma initFluidF_reynolds (cF sF : ℚ → ℚ) (s : Sim) :
    (initFluidF cF sF s).reynoldsNumber =
      if 0 < s.chordLength then s.flowSpeed * (s.chordLength : ℚ) / s.viscosity
      else s.reynoldsNumber := by
  unfold initFluidF updateReynoldsNumberF; split <;> rfl

lemma initArraysF_fields (s : Sim) :
    (initArraysF s).xdim = s.xdim ∧ (initArraysF s).ydim = s.ydim ∧
    (initArraysF s).pxPerSquare = s.pxPerSquare ∧
    (initArraysF s).flowSpeed = s.flowSpeed ∧
    (initArraysF s).flowAngle = s.flowAngle ∧
    (initArraysF s).viscosity = s.viscosity ∧
    (initArraysF s).currentAngle = s.currentAngle ∧
    (initArraysF s).chordLength = s.chordLength ∧
    (initArraysF s).reynoldsNumber = s.reynoldsNumber :=
  ⟨rfl, rfl, rfl, rfl, rfl, rfl, rfl, rfl, rfl⟩

/-- The constructor stores the (possibly invalid) viscosity resolved by
`options.viscosity || 0.01` and never validates it. -/
lemma constructorSim_viscosity (cF sF qF : ℚ → ℚ) (piQ : ℚ) (w h : ℕ) (o : Options) :
    (constructorSim cF sF qF piQ w h o).viscosity = orDefault o.viscosity 0.01 := by
  unfold constructorSim
  rw [addNACABarrierF_viscosity, initFluidF_viscosity]
  rfl

lemma constructorSim_xdim (cF sF qF : ℚ → ℚ) (piQ : ℚ) (w h : ℕ) (o : Options) :
    (constructorSim cF sF qF piQ w h o).xdim =
      (if ((⌊(w : ℚ) / orDefault o.pxPerSquare 1⌋).toNat) < 50 then 50
       else (⌊(w : ℚ) / orDefault o.pxPerSquare 1⌋).toNat) := by
  unfold constructorSim
  rw [addNACABarrierF_xdim, initFluidF_xdim]
  rfl

lemma constructorSim_ydim (cF sF qF : ℚ → ℚ) (piQ : ℚ) (w h : ℕ) (o : Options) :
    (constructorSim cF sF qF piQ w h o).ydim =
      (if ((⌊(h : ℚ) / orDefault o.pxPerSquare 1⌋).toNat) < 50 then 50
       else (⌊(h : ℚ) / orDefault o.pxPerSquare 1⌋).toNat) := by
  unfold constructorSim
  rw [addNACABarrierF_ydim, initFluidF_ydim]
  rfl

lemma constructorSim_flowSpeed (cF sF qF : ℚ → ℚ) (piQ : ℚ) (w h : ℕ) (o : Options) :
    (constructorSim cF sF qF piQ w h o).flowSpeed = orDefault o.flowSpeed 0.2 := by
  unfold constructorSim
  rw [addNACABarrierF_flowSpeed, initFluidF_flowSpeed]
  rfl

/-- The constructor generates the airfoil with chord fraction `1/3`. -/
lemma constructorSim_chordLength (cF sF qF : ℚ → ℚ) (piQ : ℚ) (w h : ℕ) (o : Options) :
    (constructorSim cF sF qF piQ w h o).chordLength =
      ⌊((constructorSim cF sF qF piQ w h o).xdim : ℚ) * (1 / 3)⌋ := by
  rw [constructorSim_xdim]
  unfold constructorSim
  rw [addNACABarrierF_chordLength, initFluidF_xdim]
  rfl

/-- `resize` regenerates the airfoil with chord fraction `1/6`. -/
lemma resizeF_chordLength (cF sF qF : ℚ → ℚ) (s : Sim) (w h : ℕ) :
    (resizeF cF sF qF s w h).chordLength =
      ⌊((resizeF cF sF qF s w h).xdim : ℚ) * (1 / 6)⌋ := by
  unfold resizeF
  rw [addNACABarrierF_chordLength, initFluidF_xdim, addNACABarrierF_xdim, initFluidF_xdim]

lemma resizeF_xdim (cF sF qF : ℚ → ℚ) (s : Sim) (w h : ℕ) :
    (resizeF cF sF qF s w h).xdim =
      (if ((⌊((max w 600 : ℕ) : ℚ) / s.pxPerSquare⌋).toNat) < 50 then 50
       else (⌊((max w 600 : ℕ) : ℚ) / s.pxPerSquare⌋).toNat) := by
  unfold resizeF
  rw [addNACABarrierF_xdim, initFluidF_xdim]
  rfl

lemma resizeF_ydim (cF sF qF : ℚ → ℚ) (s : Sim) (w h : ℕ) :
    (resizeF cF sF qF s w h).ydim =
      (if ((⌊((max h 400 : ℕ) : ℚ) / s.pxPerSquare⌋).toNat) < 50 then 50
       else (⌊((max h 400 : ℕ) : ℚ) / s.pxPerSquare⌋).toNat) := by
  unfold resizeF
  rw [addNACABarrierF_ydim, initFluidF_ydim]
  rfl

lemma resizeF_viscosity (cF sF qF : ℚ → ℚ) (s : Sim) (w h : ℕ) :
    (resizeF cF sF qF s w h).viscosity = s.viscosity := by
  unfold resizeF
  rw [addNACABarrierF_viscosity, initFluidF_viscosity]
  rfl

/-- `updateAngle` regenerates the airfoil with chord fraction `1/3.5`. -/
lemma updateAngleF_chordLength (cF sF qF : ℚ → ℚ) (s : Sim) (a : ℚ) :
    (updateAngleF cF sF qF s a).chordLength = ⌊(s.xdim : ℚ) * (1 / 3.5)⌋ := by
  unfold updateAngleF
  rw [addNACABarrierF_chordLength, initFluidF_xdim]
  rfl

lemma updateAngleF_xdim (cF sF qF : ℚ → ℚ) (s : Sim) (a : ℚ) :
    (updateAngleF cF sF qF s a).xdim = s.xdim := by
  unfold updateAngleF
  rw [addNACABarrierF_xdim, initFluidF_xdim]
  rfl

lemma updateAngleF_flowSpeed (cF sF qF : ℚ → ℚ) (s : Sim) (a : ℚ) :
    (updateAngleF cF sF qF s a).flowSpeed = s.flowSpeed := by
  unfold updateAngleF
  rw [addNACABarrierF_flowSpeed, initFluidF_flowSpeed]
  rfl

lemma updateAngleF_viscosity (cF sF qF : ℚ → ℚ) (s : Sim) (a : ℚ) :
    (updateAngleF cF sF qF s a).viscosity = s.viscosity := by
  unfold updateAngleF
  rw [addNACABarrierF_viscosity, initFluidF_viscosity]
  rfl

/-- The Reynolds number after `updateAngle`. -/
lemma updateAngleF_reynolds (cF sF qF : ℚ → ℚ) (s : Sim) (a : ℚ) :
    (updateAngleF cF sF qF s a).reynoldsNumber =
      if 0 < (⌊(s.xdim : ℚ) * (1 / 3.5)⌋ : ℤ) then
        s.flowSpeed * ((⌊(s.xdim : ℚ) * (1 / 3.5)⌋ : ℤ) : ℚ) / s.viscosity
      else (initFluidF cF sF (initArraysF { s with currentAngle := a })).reynoldsNumber := by
  unfold updateAngleF
  rw [addNACABarrierF_reynolds, initFluidF_xdim, initFluidF_flowSpeed, initFluidF_viscosity]
  rfl

end Waterworks

namespace Waterworks

/-- Generic invariance of the `barriers` mask under a state loop whose
body never writes it. -/
lemma foldl_barriers_inv (f : Arrays → ℕ → Arrays)
    (h : ∀ a i, (f a i).barriers = a.barriers) :
    ∀ (l : List ℕ) (a : Arrays), (l.foldl f a).barriers = a.barriers := by
  intro l
  induction l with
  | nil => intro a; rfl
  | cons x xs ih => intro a; rw [List.foldl_cons, ih, h]

lemma setEquilibriumA_barriers (xdim x y : ℕ) (u v r : ℚ) (a : Arrays) :
    (setEquilibriumA xdim x y u v r a).barriers = a.barriers := rfl

lemma initFluidLoop_barriers (xdim ydim : ℕ) (u v : ℚ) (a : Arrays) :
    (initFluidLoop xdim ydim u v a).barriers = a.barriers := by
  unfold initFluidLoop
  apply foldl_barriers_inv
  intro a y
  apply foldl_barriers_inv
  intro a x
  rfl

lemma zeroOutBarrierCellsA_barriers (a : Arrays) :
    (zeroOutBarrierCellsA a).barriers = a.barriers := by
  unfold zeroOutBarrierCellsA
  apply foldl_barriers_inv
  intro a i
  dsimp only
  split <;> rfl

lemma initFluidF_barriers (cF sF : ℚ → ℚ) (s : Sim) :
    (initFluidF cF sF s).arr.barriers = s.arr.barriers := by
  unfold initFluidF
  rw [updateReynoldsNumberF_arr]
  dsimp only
  rw [zeroOutBarrierCellsA_barriers]
  exact initFluidLoop_barriers _ _ _ _ _

/-- After `addNACABarrier`, the mask is the scan-line fill of the airfoil
polygon over the previous mask. -/
lemma addNACABarrierF_barriers (cF sF qF : ℚ → ℚ) (cf th ang : ℚ) (s : Sim) :
    (addNACABarrierF cF sF qF cf th ang s).arr.barriers =
      fillPolygon s.xdim s.ydim (airfoilPolygon cF sF qF s.xdim s.ydim cf th ang)
        s.arr.barriers := by
  unfold addNACABarrierF
  rw [updateReynoldsNumberF_arr]
  dsimp only
  rw [zeroOutBarrierCellsA_barriers]

lemma initArraysF_barriers (s : Sim) :
    (initArraysF s).arr.barriers = List.replicate (s.xdim * s.ydim) false := rfl

/-- The constructor's mask is the `1/3`-chord polygon filled over an
all-fluid grid. -/
lemma constructorSim_barriers (cF sF qF : ℚ → ℚ) (piQ : ℚ) (w h : ℕ) (o : Options) :
    (constructorSim cF sF qF piQ w h o).arr.barriers =
      fillPolygon (constructorSim cF sF qF piQ w h o).xdim
        (constructorSim cF sF qF piQ w h o).ydim
        (airfoilPolygon cF sF qF (constructorSim cF sF qF piQ w h o).xdim
          (constructorSim cF sF qF piQ w h o).ydim (1 / 3) 0.12 (-0.261799))
        (List.replicate
          ((constructorSim cF sF qF piQ w h o).xdim *
            (constructorSim cF sF qF piQ w h o).ydim) false) := by
  rw [constructorSim_xdim, constructorSim_ydim]
  unfold constructorSim
  rw [addNACABarrierF_barriers, initFluidF_xdim, initFluidF_ydim,
    initFluidF_barriers, initFluidF_currentAngle, initArraysF_barriers]
  rfl

/-- The mask after `updateAngle` is the `1/3.5`-chord polygon filled over
an all-fluid grid (the old mask is discarded by `initArrays`). -/
lemma updateAngleF_barriers (cF sF qF : ℚ → ℚ) (s : Sim) (ang : ℚ) :
    (updateAngleF cF sF qF s ang).arr.barriers =
      fillPolygon s.xdim s.ydim
        (airfoilPolygon cF sF qF s.xdim s.ydim (1 / 3.5) 0.12 ang)
        (List.replicate (s.xdim * s.ydim) false) := by
  unfold updateAngleF
  rw [addNACABarrierF_barriers, initFluidF_xdim, initFluidF_ydim,
    initFluidF_barriers, initFluidF_currentAngle, initArraysF_barriers]
  rfl

lemma constructorSim_currentAngle (cF sF qF : ℚ → ℚ) (piQ : ℚ) (w h : ℕ) (o : Options) :
    (constructorSim cF sF qF piQ w h o).currentAngle = -0.261799 := by
  unfold constructorSim
  rw [addNACABarrierF_currentAngle, initFluidF_currentAngle]
  rfl

lemma constructorSim_reynolds (cF sF qF : ℚ → ℚ) (piQ : ℚ) (w h : ℕ) (o : Options) :
    (constructorSim cF sF qF piQ w h o).reynoldsNumber =
      if 0 < (⌊((constructorSim cF sF qF piQ w h o).xdim : ℚ) * (1 / 3)⌋ : ℤ) then
        orDefault o.flowSpeed 0.2 *
          ((⌊((constructorSim cF sF qF piQ w h o).xdim : ℚ) * (1 / 3)⌋ : ℤ) : ℚ) /
          orDefault o.viscosity 0.01
      else 0 := by
  rw [constructorSim_xdim]
  unfold constructorSim
  rw [addNACABarrierF_reynolds, initFluidF_xdim, initFluidF_flowSpeed,
    initFluidF_viscosity, initFluidF_reynolds]
  rfl

/-- The default-options constructor state on a 50 × 50 canvas, with the
rational stand-ins for the host's trigonometry. -/
def baseState : Sim := constructorSim cosT sinT sqrtT piT 50 50 defaultOptions

/-- `baseState` after one `updateAngle` call passing the current angle
unchanged. -/
def regenState : Sim := updateAngleF cosT sinT sqrtT baseState baseState.currentAngle

lemma baseState_xdim : baseState.xdim = 50 := by decide

lemma baseState_ydim : baseState.ydim = 50 := by decide

lemma baseState_chordLength : baseState.chordLength = 16 := by decide

lemma baseState_reynolds : baseState.reynoldsNumber = 320 := by decide

lemma regenState_chordLength : regenState.chordLength = 14 := by decide

lemma regenState_reynolds : regenState.reynoldsNumber = 280 := by decide

lemma baseState_mask_1081 : gB baseState.arr.barriers 1081 = true := by
  rw [baseState, constructorSim_barriers]
  decide

lemma regenState_mask_1081 : gB regenState.arr.barriers 1081 = false := by
  rw [regenState, updateAngleF_barriers, baseState_xdim, baseState_ydim,
    baseState, constructorSim_currentAngle]
  decide

/-- C7 (counterexample): constructing a simulation with viscosity `-1` —
which drives `omega = 1/(3·(-1)+0.5) = -2/5` outside the stable range
`(0, 2)` — raises no error: the constructor completes, stores the invalid
viscosity, and builds a 800 × 600 grid. -/
theorem negativeViscosityAccepted :
    (constructorSim cosT sinT sqrtT piT 800 600 ⟨none, none, some (-1), none⟩).viscosity = -1 ∧
    1 / (3 * (constructorSim cosT sinT sqrtT piT 800 600
        ⟨none, none, some (-1), none⟩).viscosity + 0.5) = -(2 / 5) ∧
    ¬ (0 < -(2 / 5 : ℚ) ∧ -(2 / 5 : ℚ) < 2) ∧
    (constructorSim cosT sinT sqrtT piT 800 600 ⟨none, none, some (-1), none⟩).xdim = 800 ∧
    (constructorSim cosT sinT sqrtT piT 800 600 ⟨none, none, some (-1), none⟩).ydim = 600 := by
  have hv : (constructorSim cosT sinT sqrtT piT 800 600
      ⟨none, none, some (-1), none⟩).viscosity = -1 := by
    rw [constructorSim_viscosity]
    norm_num [orDefault]
  refine ⟨hv, ?_, by norm_num, ?_, ?_⟩
  · rw [hv]; norm_num
  · rw [constructorSim_xdim]; norm_num [orDefault]; decide
  · rw [constructorSim_ydim]; norm_num [orDefault]; decide

/-- C7 (amended): neither the constructor nor `resize` performs any
configuration validation.  The constructor accepts any nonzero viscosity
(zero falls back to the default `0.01`) and stores it unchecked, with the
grid clamped to at least 50 × 50; `resize` likewise always proceeds,
clamping the grid and keeping the stored viscosity, whatever it is. -/
theorem constructResizeNoValidation (cF sF qF : ℚ → ℚ) (piQ : ℚ) (w h : ℕ)
    (o : Options) (v : ℚ) (hv : v ≠ 0) :
    (constructorSim cF sF qF piQ w h { o with viscosity := some v }).viscosity = v ∧
    50 ≤ (constructorSim cF sF qF piQ w h { o with viscosity := some v }).xdim ∧
    50 ≤ (constructorSim cF sF qF piQ w h { o with viscosity := some v }).ydim ∧
    ∀ (st : Sim) (w2 h2 : ℕ),
      50 ≤ (resizeF cF sF qF st w2 h2).xdim ∧
      50 ≤ (resizeF cF sF qF st w2 h2).ydim ∧
      (resizeF cF sF qF st w2 h2).viscosity = st.viscosity := by
  refine ⟨?_, ?_, ?_, ?_⟩
  · rw [constructorSim_viscosity]
    simp [orDefault, hv]
  · rw [constructorSim_xdim]
    split <;> omega
  · rw [constructorSim_ydim]
    split <;> omega
  · intro st w2 h2
    refine ⟨?_, ?_, resizeF_viscosity cF sF qF st w2 h2⟩
    · rw [resizeF_xdim]
      split <;> omega
    · rw [resizeF_ydim]
      split <;> omega

/-- C7 (witness): the amended theorem at viscosity `-1`. -/
theorem constructResizeNoValidation_spot :
    (constructorSim cosT sinT sqrtT piT 800 600
      { defaultOptions with viscosity := some (-1) }).viscosity = -1 ∧
    50 ≤ (constructorSim cosT sinT sqrtT piT 800 600
      { defaultOptions with viscosity := some (-1) }).xdim ∧
    50 ≤ (constructorSim cosT sinT sqrtT piT 800 600
      { defaultOptions with viscosity := some (-1) }).ydim ∧
    ∀ (st : Sim) (w2 h2 : ℕ),
      50 ≤ (resizeF cosT sinT sqrtT st w2 h2).xdim ∧
      50 ≤ (resizeF cosT sinT sqrtT st w2 h2).ydim ∧
      (resizeF cosT sinT sqrtT st w2 h2).viscosity = st.viscosity :=
  constructResizeNoValidation cosT sinT sqrtT piT 800 600 defaultOptions (-1)
    (by norm_num)

/-- C10: which operation regenerated the geometry determines the chord.
The constructor's chord length is `floor(xdim/3)`, `resize`'s is
`floor(xdim/6)`, and `updateAngle`'s is `floor(xdim/3.5)` — so on the
default 50 × 50 state the first `updateAngle` call, even with the angle
unchanged, shrinks the chord from 16 to 14, changes the Reynolds number
from 320 to 280, and produces a different solid mask (cell 1081 is solid
before and fluid after). -/
theorem chordFractionProvenance :
    (∀ (cF sF qF : ℚ → ℚ) (piQ : ℚ) (w h : ℕ) (o : Options),
      (constructorSim cF sF qF piQ w h o).chordLength
        = ⌊((constructorSim cF sF qF piQ w h o).xdim : ℚ) / 3⌋) ∧
    (∀ (cF sF qF : ℚ → ℚ) (s : Sim) (w h : ℕ),
      (resizeF cF sF qF s w h).chordLength
        = ⌊((resizeF cF sF qF s w h).xdim : ℚ) / 6⌋) ∧
    (∀ (cF sF qF : ℚ → ℚ) (s : Sim) (a : ℚ),
      (updateAngleF cF sF qF s a).chordLength = ⌊(s.xdim : ℚ) / 3.5⌋) ∧
    baseState.chordLength = 16 ∧ regenState.chordLength = 14 ∧
    regenState.chordLength ≠ baseState.chordLength ∧
    baseState.reynoldsNumber = 320 ∧ regenState.reynoldsNumber = 280 ∧
    regenState.reynoldsNumber ≠ baseState.reynoldsNumber ∧
    regenState.arr.barriers ≠ baseState.arr.barriers := by
  refine ⟨?_, ?_, ?_, baseState_chordLength, regenState_chordLength, ?_,
    baseState_reynolds, regenState_reynolds, ?_, ?_⟩
  · intro cF sF qF piQ w h o
    rw [constructorSim_chordLength, mul_one_div]
  · intro cF sF qF s w h
    rw [resizeF_chordLength, mul_one_div]
  · intro cF sF qF s a
    rw [updateAngleF_chordLength, mul_one_div]
  · rw [baseState_chordLength, regenState_chordLength]; norm_num
  · rw [baseState_reynolds, regenState_reynolds]; norm_num
  · intro hEq
    have h1 : gB regenState.arr.barriers 1081 = gB baseState.arr.barriers 1081 := by
      rw [hEq]
    rw [baseState_mask_1081, regenState_mask_1081] at h1
    exact Bool.false_ne_true h1

lemma updateAngleF_ydim (cF sF qF : ℚ → ℚ) (s : Sim) (a : ℚ) :
    (updateAngleF cF sF qF s a).ydim = s.ydim := by
  unfold updateAngleF
  rw [addNACABarrierF_ydim, initFluidF_ydim]
  rfl

lemma updateAngleF_flowAngle (cF sF qF : ℚ → ℚ) (s : Sim) (a : ℚ) :
    (updateAngleF cF sF qF s a).flowAngle = s.flowAngle := by
  unfold updateAngleF
  rw [addNACABarrierF_flowAngle, initFluidF_flowAngle]
  rfl

/-- The cell arrays produced by `updateAngle`, as a function of the only
state the regeneration reads: grid dimensions, flow speed and angle, and
the new angle of attack.  (`initArrays` discards every old array, so
nothing else can flow in.) -/
def regenArr (cF sF qF : ℚ → ℚ) (xdim ydim : ℕ) (flowSpeed flowAngle newAngle : ℚ) : Arrays :=
  let a := freshArrays (xdim * ydim)
  let a := initFluidLoop xdim ydim (flowSpeed * cF flowAngle) (flowSpeed * sF flowAngle) a
  let a := { a with curl := a.curl.map (fun _ => 0) }
  let a := zeroOutBarrierCellsA a
  let polygon := airfoilPolygon cF sF qF xdim ydim (1 / 3.5) 0.12 newAngle
  let a := { a with barriers := fillPolygon xdim ydim polygon a.barriers }
  zeroOutBarrierCellsA a

/-- `updateAngle` rebuilds the arrays from scratch: its resulting arrays
depend only on the grid dimensions, the flow parameters, and the new
angle. -/
lemma updateAngleF_arr (cF sF qF : ℚ → ℚ) (st : Sim) (a : ℚ) :
    (updateAngleF cF sF qF st a).arr
      = regenArr cF sF qF st.xdim st.ydim st.flowSpeed st.flowAngle a := by
  unfold updateAngleF addNACABarrierF regenArr
  rw [updateReynoldsNumberF_arr]
  dsimp only
  unfold initFluidF
  rw [updateReynoldsNumberF_arr, updateReynoldsNumberF_xdim, updateReynoldsNumberF_ydim,
    updateReynoldsNumberF_currentAngle]
  rfl

/-- C9: calling `updateAngle` twice in a row with the same angle yields
bit-identical solid masks and bit-identical population and macroscopic
field arrays: the whole array state of the second call equals that of the
first. -/
theorem updateAngleIdempotent (cF sF qF : ℚ → ℚ) (st : Sim) (a : ℚ) :
    (updateAngleF cF sF qF (updateAngleF cF sF qF st a) a).arr
      = (updateAngleF cF sF qF st a).arr := by
  rw [updateAngleF_arr, updateAngleF_arr, updateAngleF_xdim, updateAngleF_ydim,
    updateAngleF_flowSpeed, updateAngleF_flowAngle]

/-- The all-zero cell (the populations of a freshly zeroed barrier cell). -/
def zeroCell : Cell :=
  { n0 := 0, nN := 0, nS := 0, nE := 0, nW := 0, nNE := 0, nSE := 0, nNW := 0, nSW := 0 }

/-- A lattice in which every cell was initialized by the same
`setEquilibrium(x, y, u, v, r)`: each population array is constant at the
corresponding equilibrium component, the macroscopic arrays are constant
at `(r, u, v)`, and the mask is all fluid. -/
def uniformLat (xdim ydim : ℕ) (u v r visc : ℚ) : Sim :=
  { xdim := xdim, ydim := ydim, pxPerSquare := 1, flowSpeed := 0, flowAngle := 0,
    viscosity := visc, currentAngle := 0, chordLength := 0, reynoldsNumber := 0,
    arr :=
      { n0 := List.replicate (xdim * ydim) (equilibriumCell u v r).n0
        nN := List.replicate (xdim * ydim) (equilibriumCell u v r).nN
        nS := List.replicate (xdim * ydim) (equilibriumCell u v r).nS
        nE := List.replicate (xdim * ydim) (equilibriumCell u v r).nE
        nW := List.replicate (xdim * ydim) (equilibriumCell u v r).nW
        nNE := List.replicate (xdim * ydim) (equilibriumCell u v r).nNE
        nSE := List.replicate (xdim * ydim) (equilibriumCell u v r).nSE
        nNW := List.replicate (xdim * ydim) (equilibriumCell u v r).nNW
        nSW := List.replicate (xdim * ydim) (equilibriumCell u v r).nSW
        rho := List.replicate (xdim * ydim) r
        ux := List.replicate (xdim * ydim) u
        uy := List.replicate (xdim * ydim) v
        curl := List.replicate (xdim * ydim) 0
        pressure := List.replicate (xdim * ydim) 0
        speed := List.replicate (xdim * ydim) 0
        barriers := List.replicate (xdim * ydim) false } }

/-- The invariant carried through the collision loop: population arrays
uniformly at equilibrium, no barriers. -/
def popsUniform (N : ℕ) (u v r : ℚ) (a : Arrays) : Prop :=
  a.n0 = List.replicate N (equilibriumCell u v r).n0 ∧
  a.nN = List.replicate N (equilibriumCell u v r).nN ∧
  a.nS = List.replicate N (equilibriumCell u v r).nS ∧
  a.nE = List.replicate N (equilibriumCell u v r).nE ∧
  a.nW = List.replicate N (equilibriumCell u v r).nW ∧
  a.nNE = List.replicate N (equilibriumCell u v r).nNE ∧
  a.nSE = List.replicate N (equilibriumCell u v r).nSE ∧
  a.nNW = List.replicate N (equilibriumCell u v r).nNW ∧
  a.nSW = List.replicate N (equilibriumCell u v r).nSW ∧
  a.barriers = List.replicate N false

/-- A cell with no mass is a fixed point of the BGK update (its
equilibrium target is identically zero). -/
lemma bgk_zero_cell (w : ℚ) : (collideBGKcell w zeroCell).pops = zeroCell := by
  simp [collideBGKcell, equilibriumCell, zeroCell, density, xmom, ymom,
    four9ths, one9th, one36th]

/-- A property preserved by every loop iteration is preserved by the whole
loop. -/
lemma foldl_arrays_inv (P : Arrays → Prop) (f : Arrays → ℕ → Arrays)
    (h : ∀ a i, P a → P (f a i)) :
    ∀ (l : List ℕ) (a : Arrays), P a → P (l.foldl f a) := by
  intro l
  induction l with
  | nil => intro a hp; exact hp
  | cons x xs ih => intro a hp; rw [List.foldl_cons]; exact ih _ (h a x hp)

/-- One collision step preserves the uniform-equilibrium invariant: the
cell it reads is already at equilibrium (or out of range and all zero),
so it writes back exactly what was there. -/
lemma collideBGKstep_preserves (visc u v r : ℚ) (hr : r ≠ 0) (N xdim x y : ℕ)
    (a : Arrays) (hp : popsUniform N u v r a) :
    popsUniform N u v r (collideBGKstep visc xdim a x y) := by
  obtain ⟨h0, hN, hS, hE, hW, hNE, hSE, hNW, hSW, hb⟩ := hp
  simp only [collideBGKstep]
  rw [hb, gB_replicate]
  simp only [Bool.false_eq_true, if_false]
  by_cases hi : idx xdim x y < N
  · have hc : cellAt a (idx xdim x y) = equilibriumCell u v r := by
      simp [cellAt, getQ, h0, hN, hS, hE, hW, hNE, hSE, hNW, hSW,
        List.getElem?_replicate, hi]
    rw [hc, bgk_fixes_equilibrium _ _ _ _ hr]
    refine ⟨?_, ?_, ?_, ?_, ?_, ?_, ?_, ?_, ?_, ?_⟩ <;>
      simp [writePops, h0, hN, hS, hE, hW, hNE, hSE, hNW, hSW, hb,
        List.set_replicate_self]
  · have hc : cellAt a (idx xdim x y) = zeroCell := by
      simp [cellAt, getQ, zeroCell, h0, hN, hS, hE, hW, hNE, hSE, hNW, hSW,
        List.getElem?_replicate, hi]
    rw [hc, bgk_zero_cell]
    have hle : ∀ (q : ℚ), (List.replicate N q).length ≤ idx xdim x y := by
      intro q; simp [List.length_replicate]; omega
    refine ⟨?_, ?_, ?_, ?_, ?_, ?_, ?_, ?_, ?_, ?_⟩ <;>
      simp [writePops, h0, hN, hS, hE, hW, hNE, hSE, hNW, hSW, hb, zeroCell,
        List.set_eq_of_length_le (hle _)]

/-- C8: a lattice uniformly initialized by `setEquilibrium` at a positive
density is a fixed point of `collideBGK`: every population array is
unchanged by one collision pass, in exact arithmetic. -/
theorem uniformEquilibriumFixedPoint (xdim ydim : ℕ) (u v r visc : ℚ) (hr : 0 < r) :
    (collideBGKlat (uniformLat xdim ydim u v r visc)).arr.n0
      = (uniformLat xdim ydim u v r visc).arr.n0 ∧
    (collideBGKlat (uniformLat xdim ydim u v r visc)).arr.nN
      = (uniformLat xdim ydim u v r visc).arr.nN ∧
    (collideBGKlat (uniformLat xdim ydim u v r visc)).arr.nS
      = (uniformLat xdim ydim u v r visc).arr.nS ∧
    (collideBGKlat (uniformLat xdim ydim u v r visc)).arr.nE
      = (uniformLat xdim ydim u v r visc).arr.nE ∧
    (collideBGKlat (uniformLat xdim ydim u v r visc)).arr.nW
      = (uniformLat xdim ydim u v r visc).arr.nW ∧
    (collideBGKlat (uniformLat xdim ydim u v r visc)).arr.nNE
      = (uniformLat xdim ydim u v r visc).arr.nNE ∧
    (collideBGKlat (uniformLat xdim ydim u v r visc)).arr.nSE
      = (uniformLat xdim ydim u v r visc).arr.nSE ∧
    (collideBGKlat (uniformLat xdim ydim u v r visc)).arr.nNW
      = (uniformLat xdim ydim u v r visc).arr.nNW ∧
    (collideBGKlat (uniformLat xdim ydim u v r visc)).arr.nSW
      = (uniformLat xdim ydim u v r visc).arr.nSW := by
  have key : popsUniform (xdim * ydim) u v r
      (collideBGKlat (uniformLat xdim ydim u v r visc)).arr := by
    unfold collideBGKlat
    dsimp only
    apply foldl_arrays_inv (P := popsUniform (xdim * ydim) u v r)
    · intro a y hp
      apply foldl_arrays_inv (P := popsUniform (xdim * ydim) u v r)
      · intro a2 x hp2
        exact collideBGKstep_preserves _ u v r (ne_of_gt hr) _ _ _ _ a2 hp2
      · exact hp
    · exact ⟨rfl, rfl, rfl, rfl, rfl, rfl, rfl, rfl, rfl, rfl⟩
  obtain ⟨h0, hN, hS, hE, hW, hNE, hSE, hNW, hSW, hb⟩ := key
  exact ⟨h0, hN, hS, hE, hW, hNE, hSE, hNW, hSW⟩

/-- C8 (witness): the fixed-point theorem on a 3 × 3 grid at
`(ux, uy, rho) = (1/10, 0, 1)` with the default viscosity. -/
theorem uniformEquilibriumFixedPoint_spot :
    (collideBGKlat (uniformLat 3 3 (1/10) 0 1 (1/100))).arr.n0
      = (uniformLat 3 3 (1/10) 0 1 (1/100)).arr.n0 ∧
    (collideBGKlat (uniformLat 3 3 (1/10) 0 1 (1/100))).arr.nN
      = (uniformLat 3 3 (1/10) 0 1 (1/100)).arr.nN ∧
    (collideBGKlat (uniformLat 3 3 (1/10) 0 1 (1/100))).arr.nS
      = (uniformLat 3 3 (1/10) 0 1 (1/100)).arr.nS ∧
    (collideBGKlat (uniformLat 3 3 (1/10) 0 1 (1/100))).arr.nE
      = (uniformLat 3 3 (1/10) 0 1 (1/100)).arr.nE ∧
    (collideBGKlat (uniformLat 3 3 (1/10) 0 1 (1/100))).arr.nW
      = (uniformLat 3 3 (1/10) 0 1 (1/100)).arr.nW ∧
    (collideBGKlat (uniformLat 3 3 (1/10) 0 1 (1/100))).arr.nNE
      = (uniformLat 3 3 (1/10) 0 1 (1/100)).arr.nNE ∧
    (collideBGKlat (uniformLat 3 3 (1/10) 0 1 (1/100))).arr.nSE
      = (uniformLat 3 3 (1/10) 0 1 (1/100)).arr.nSE ∧
    (collideBGKlat (uniformLat 3 3 (1/10) 0 1 (1/100))).arr.nNW
      = (uniformLat 3 3 (1/10) 0 1 (1/100)).arr.nNW ∧
    (collideBGKlat (uniformLat 3 3 (1/10) 0 1 (1/100))).arr.nSW
      = (uniformLat 3 3 (1/10) 0 1 (1/100)).arr.nSW :=
  uniformEquilibriumFixedPoint 3 3 (1/10) 0 1 (1/100) (by norm_num)

/-- A 3 × 3 lattice whose center cell holds total density `1e-6` (all of
it in the rest population), surrounded by unit-density equilibrium cells;
no barriers. -/
def lowDensityLat : Sim :=
  { xdim := 3, ydim := 3, pxPerSquare := 1, flowSpeed := 1/5, flowAngle := 0,
    viscosity := 1/100, currentAngle := 0, chordLength := 0, reynoldsNumber := 0,
    arr :=
      { n0 := (List.replicate 9 (4/9)).set 4 (1/1000000)
        nN := (List.replicate 9 (1/9)).set 4 0
        nS := (List.replicate 9 (1/9)).set 4 0
        nE := (List.replicate 9 (1/9)).set 4 0
        nW := (List.replicate 9 (1/9)).set 4 0
        nNE := (List.replicate 9 (1/36)).set 4 0
        nSE := (List.replicate 9 (1/36)).set 4 0
        nNW := (List.replicate 9 (1/36)).set 4 0
        nSW := (List.replicate 9 (1/36)).set 4 0
        rho := List.replicate 9 1
        ux := List.replicate 9 0
        uy := List.replicate 9 0
        curl := List.replicate 9 0
        pressure := List.replicate 9 (1/3)
        speed := List.replicate 9 0
        barriers := List.replicate 9 false } }

/-- C1 (counterexample): `collideBGK` on the cell of density `1e-6` — far
below the `0.1` floor — performs the ordinary relaxation instead of a
reset: afterwards the cell's population sum is still `1e-6` (no safe
reference density was restored), the state remains below the floor, and
the rest population has even gone negative.  No correction counter exists
anywhere in the state. -/
theorem bgkNoResetBelowFloor :
    computeDensityA (collideBGKlat lowDensityLat).arr 4 = 1/1000000 ∧
    ((1 : ℚ)/1000000) < 1/10 ∧
    getQ (collideBGKlat lowDensityLat).arr.n0 4 < 0 := by
  decide

/-- C1 (amended): the BGK collision has no density floor or finiteness
guard; on any cell of positive density — however small — it divides by
that density and relaxes toward equilibrium, conserving the cell's mass
exactly (so a `1e-6`-density cell still sums to `1e-6` afterwards, and no
reset or counter update happens). -/
theorem collideBGKLowDensityMassConserved (w : ℚ) (c : Cell) (h : 0 < density c) :
    density (collideBGKcell w c).pops = density c :=
  bgk_density_general w c

/-- C1 (witness): mass conservation at the `1e-6` cell of the spec's
stability test. -/
theorem collideBGKLowDensityMassConserved_spot :
    density (collideBGKcell (1/100) tinyCell).pops = density tinyCell :=
  collideBGKLowDensityMassConserved (1/100) tinyCell (by decide)

/-- A 5 × 5 lattice with distinct values in the east, west, and north
population arrays (value = cell index, +200, +100), no barriers. -/
def shiftLat : Sim :=
  { xdim := 5, ydim := 5, pxPerSquare := 1, flowSpeed := 1/5, flowAngle := 0,
    viscosity := 1/100, currentAngle := 0, chordLength := 0, reynoldsNumber := 0,
    arr := { freshArrays 25 with
             nE := (List.range 25).map (fun i => (i : ℚ))
             nN := (List.range 25).map (fun i => (i : ℚ) + 100)
             nW := (List.range 25).map (fun i => (i : ℚ) + 200) } }

/-- C2: after `stream()`, the east-moving population of the interior cell
(2,2) holds the pre-stream value of the cell to its east, `nE[3,2]` — not
the upstream value `nE[1,2]` required for eastward propagation — and the
west-moving population holds `nW[1,2]` instead of `nW[3,2]`; the
north-moving population is propagated correctly (`nN[2,2] ← nN[2,1]`).
The east/west loops shift their arrays toward the wrong side. -/
theorem streamEastWestReversed :
    getQ (streamF shiftLat).arr.nE (idx 5 2 2) = getQ shiftLat.arr.nE (idx 5 3 2) ∧
    getQ shiftLat.arr.nE (idx 5 3 2) ≠ getQ shiftLat.arr.nE (idx 5 1 2) ∧
    getQ (streamF shiftLat).arr.nW (idx 5 2 2) = getQ shiftLat.arr.nW (idx 5 1 2) ∧
    getQ shiftLat.arr.nW (idx 5 1 2) ≠ getQ shiftLat.arr.nW (idx 5 3 2) ∧
    getQ (streamF shiftLat).arr.nN (idx 5 2 2) = getQ shiftLat.arr.nN (idx 5 2 1) := by
  decide

/-- A 5 × 5 lattice of unit-density fluid at rest (equilibrium
populations `4/9`, `1/9`, `1/36`) with a single solid cell at the center
(2,2), whose populations and macroscopic fields are zeroed. -/
def restLat : Sim :=
  { xdim := 5, ydim := 5, pxPerSquare := 1, flowSpeed := 1/5, flowAngle := 0,
    viscosity := 1/100, currentAngle := 0, chordLength := 0, reynoldsNumber := 0,
    arr :=
      { n0 := (List.replicate 25 (4/9)).set 12 0
        nN := (List.replicate 25 (1/9)).set 12 0
        nS := (List.replicate 25 (1/9)).set 12 0
        nE := (List.replicate 25 (1/9)).set 12 0
        nW := (List.replicate 25 (1/9)).set 12 0
        nNE := (List.replicate 25 (1/36)).set 12 0
        nSE := (List.replicate 25 (1/36)).set 12 0
        nNW := (List.replicate 25 (1/36)).set 12 0
        nSW := (List.replicate 25 (1/36)).set 12 0
        rho := (List.replicate 25 1).set 12 0
        ux := List.replicate 25 0
        uy := List.replicate 25 0
        curl := List.replicate 25 0
        pressure := List.replicate 25 (1/3)
        speed := List.replicate 25 0
        barriers := (List.replicate 25 false).set 12 true } }

/-- C6 (counterexample): after one `stream()` pass (including
bounce-back) on the rest lattice, the solid center cell's north-moving
population is `1/9`, not zero: streaming writes into barrier cells and
the four swap pairs of the bounce-back leave the swapped values stored in
the solid cell. -/
theorem solidCellGainsPopulations :
    getQ (streamF restLat).arr.nN (idx 5 2 2) = 1/9 ∧ ((1 : ℚ)/9) ≠ 0 := by
  decide

/-- C6 (amended): after one `stream()` pass on the rest lattice, the
solid cell's stored macroscopic velocity is exactly zero and its rest
population is zero, but all eight moving populations hold the streamed or
swapped neighbor values (`1/9` axial, `1/36` diagonal): swap-style
bounce-back stores data in the solid cell rather than leaving it empty. -/
theorem solidCellResidueAfterStream :
    getQ (streamF restLat).arr.ux (idx 5 2 2) = 0 ∧
    getQ (streamF restLat).arr.uy (idx 5 2 2) = 0 ∧
    getQ (streamF restLat).arr.n0 (idx 5 2 2) = 0 ∧
    getQ (streamF restLat).arr.nN (idx 5 2 2) = 1/9 ∧
    getQ (streamF restLat).arr.nS (idx 5 2 2) = 1/9 ∧
    getQ (streamF restLat).arr.nE (idx 5 2 2) = 1/9 ∧
    getQ (streamF restLat).arr.nW (idx 5 2 2) = 1/9 ∧
    getQ (streamF restLat).arr.nNE (idx 5 2 2) = 1/36 ∧
    getQ (streamF restLat).arr.nSE (idx 5 2 2) = 1/36 ∧
    getQ (streamF restLat).arr.nNW (idx 5 2 2) = 1/36 ∧
    getQ (streamF restLat).arr.nSW (idx 5 2 2) = 1/36 := by
  decide

/-- C5: on the rest lattice — whose single solid cell at (2,2) is
surrounded by fluid — `calculateForces` does not return force
coefficients: its pressure loop reads the shadowing `const nx` inside its
temporal dead zone at the first fluid neighbor and throws a
`ReferenceError`. -/
theorem calculateForcesReferenceError :
    calculateForcesE cosT sinT restLat
      = Except.error "ReferenceError: cannot access nx before initialization" := by
  rfl

/-- C3 (counterexample): with every non-conserved relaxation rate of `S`
set to `omega = 1/(3·0.01 + 0.5)`, the MRT collision of a unit-density
cell moving east does not reproduce the BGK populations (the equilibrium
heat-flux moments `-(2/3)·rho·u` differ from the `-rho·u` that would make
MRT collapse to BGK). -/
theorem mrtUniformRatesPopsDiffer :
    (collideMRTcell (1/(3*(1/100)+0.5)) (1/(3*(1/100)+0.5)) (1/(3*(1/100)+0.5))
        (1/100) movingCell).pops
      ≠ (collideBGKcell (1/100) movingCell).pops := by
  decide

/-- C3 (amended): with all non-conserved rates equal to `omega`, the MRT
and BGK collisions agree on the conserved moments — the post-collision
population sum and both momentum components coincide for every cell of
nonzero density — but not on the populations themselves (see the
counterexample); the operators are macroscopically, not population-wise,
equivalent on the step, and streams of the two differ afterwards. -/
theorem mrtUniformRatesMacroAgree (w : ℚ) (c : Cell) (h : density c ≠ 0) :
    density (collideMRTcell (1/(3*w+0.5)) (1/(3*w+0.5)) (1/(3*w+0.5)) w c).pops
      = density (collideBGKcell w c).pops ∧
    xmom (collideMRTcell (1/(3*w+0.5)) (1/(3*w+0.5)) (1/(3*w+0.5)) w c).pops
      = xmom (collideBGKcell w c).pops ∧
    ymom (collideMRTcell (1/(3*w+0.5)) (1/(3*w+0.5)) (1/(3*w+0.5)) w c).pops
      = ymom (collideBGKcell w c).pops := by
  have hx : density c * (xmom c / density c) = xmom c := by field_simp
  have hy : density c * (ymom c / density c) = ymom c := by field_simp
  refine ⟨?_, ?_, ?_⟩
  · rw [mrt_density_general, bgk_density_general]
  · rw [mrt_xmom_general, bgk_xmom_general, hx]; ring
  · rw [mrt_ymom_general, bgk_ymom_general, hy]; ring

/-- C3 (witness): macroscopic agreement at the unit-density east-moving
cell. -/
theorem mrtUniformRatesMacroAgree_spot :
    density (collideMRTcell (1/(3*(1/100)+0.5)) (1/(3*(1/100)+0.5)) (1/(3*(1/100)+0.5))
        (1/100) movingCell).pops
      = density (collideBGKcell (1/100) movingCell).pops ∧
    xmom (collideMRTcell (1/(3*(1/100)+0.5)) (1/(3*(1/100)+0.5)) (1/(3*(1/100)+0.5))
        (1/100) movingCell).pops
      = xmom (collideBGKcell (1/100) movingCell).pops ∧
    ymom (collideMRTcell (1/(3*(1/100)+0.5)) (1/(3*(1/100)+0.5)) (1/(3*(1/100)+0.5))
        (1/100) movingCell).pops
      = ymom (collideBGKcell (1/100) movingCell).pops :=
  mrtUniformRatesMacroAgree (1/100) movingCell (by decide)

/-- A 4 × 4 lattice at unit-density rest equilibrium except row `y = 2`
(cells 8–11), which holds twice the equilibrium populations (density 2);
the stored `rho` is 1 everywhere; no barriers; `flowAngle = 0`. -/
def doubledRowLat : Sim :=
  { xdim := 4, ydim := 4, pxPerSquare := 1, flowSpeed := 1/5, flowAngle := 0,
    viscosity := 1/100, currentAngle := 0, chordLength := 0, reynoldsNumber := 0,
    arr :=
      { n0 := List.replicate 8 (4/9) ++ List.replicate 4 (8/9) ++ List.replicate 4 (4/9)
        nN := List.replicate 8 (1/9) ++ List.replicate 4 (2/9) ++ List.replicate 4 (1/9)
        nS := List.replicate 8 (1/9) ++ List.replicate 4 (2/9) ++ List.replicate 4 (1/9)
        nE := List.replicate 8 (1/9) ++ List.replicate 4 (2/9) ++ List.replicate 4 (1/9)
        nW := List.replicate 8 (1/9) ++ List.replicate 4 (2/9) ++ List.replicate 4 (1/9)
        nNE := List.replicate 8 (1/36) ++ List.replicate 4 (2/36) ++ List.replicate 4 (1/36)
        nSE := List.replicate 8 (1/36) ++ List.replicate 4 (2/36) ++ List.replicate 4 (1/36)
        nNW := List.replicate 8 (1/36) ++ List.replicate 4 (2/36) ++ List.replicate 4 (1/36)
        nSW := List.replicate 8 (1/36) ++ List.replicate 4 (2/36) ++ List.replicate 4 (1/36)
        rho := List.replicate 16 1
        ux := List.replicate 16 0
        uy := List.replicate 16 0
        curl := List.replicate 16 0
        pressure := List.replicate 16 (1/3)
        speed := List.replicate 16 0
        barriers := List.replicate 16 false } }

/-- C4 (counterexample): immediately after boundary conditions and
collision on the doubled-row lattice, the fluid cell (1,3) of the top
edge row holds populations summing to 2 (copied by the free-slip rule
from row 2) while its stored `rho` is still 1: the invariant
`Σ f = rho` fails on the edge row, which the collision loop never
updates. -/
theorem edgeRowSumRhoMismatch :
    computeDensityA (collideBGKlat (setBoundaryConditionsF cosT sinT doubledRowLat)).arr
        (idx 4 1 3) = 2 ∧
    getQ (collideBGKlat (setBoundaryConditionsF cosT sinT doubledRowLat)).arr.rho
        (idx 4 1 3) = 1 ∧
    ((2 : ℚ)) ≠ 1 ∧
    gB (collideBGKlat (setBoundaryConditionsF cosT sinT doubledRowLat)).arr.barriers
        (idx 4 1 3) = false := by
  decide

/-- C4 (amended): wherever the step actually writes — the interior cells
updated by `collideBGK` and the inlet/outlet columns written by
`setEquilibrium` — the stored `rho` does equal the population sum, in
exact arithmetic; the invariant fails only on the free-slip top and
bottom rows, whose populations are copied without refreshing `rho`. -/
theorem collisionWritesMatchingRho (w u v r : ℚ) (c : Cell) (h : 0 < density c) :
    density (collideBGKcell w c).pops = (collideBGKcell w c).rho ∧
    density (equilibriumCell u v r) = r :=
  ⟨bgk_density_general w c, density_equilibrium u v r⟩

/-- C4 (witness): the written `rho` matches the population sum at a
double-density rest cell. -/
theorem collisionWritesMatchingRho_spot :
    density (collideBGKcell (1/100) doubleCell).pops = (collideBGKcell (1/100) doubleCell).rho ∧
    density (equilibriumCell 0 0 (2 : ℚ)) = 2 :=
  collisionWritesMatchingRho (1/100) 0 0 2 doubleCell (by decide)

end Waterworks
